import Mathlib

/-!
BasicOpenCL: the vector-addition driver of `src/main.cpp`.

A shallow embedding of `main`, `printBuildLog` and `printError`.

* The OpenCL runtime is an external library.  Every value it hands back to the
  program (status codes, the build-log bytes and their reported length, the
  initial contents of the write-only buffer, the order in which it runs the
  work-items of a dispatch) is a field of `Runtime`.
* The effect of the runtime calls on device memory follows the embedded kernel
  source and the OpenCL meaning of the calls: a buffer created with
  `CL_MEM_COPY_HOST_PTR` holds a copy of the host array, `clSetKernelArg`
  binds an argument slot, `clEnqueueNDRangeKernel` runs the kernel once per
  work-item, the blocking `clEnqueueReadBuffer` copies a buffer to the host.
* `float` arithmetic is a parameter (`FloatOps`): the theorems hold for every
  interpretation of `+`, `*`, `/` and of the conversion from `int`.
* C array writes are bounds-checked: an out-of-range write leaves the
  defined behaviour of the program, and the run has no exit code.  The report
  loop reads the host arrays without a bounds check; a read past the end of an
  array yields whatever the memory there holds (`Runtime.stray`).
-/

namespace BasicOpenCL

/-! ## Constants -/

/-- The element count `NumElemets` (main.cpp line 9). -/
def NumElemets : Nat := 10000

/-- The size of the `devices` array (main.cpp line 10). -/
def MaxDevices : Nat := 10

/-- The requested build-log size (main.cpp line 11). -/
def MaxLogSize : Nat := 5000

/-- The status `CL_SUCCESS` of the Khronos header `CL/cl.h`. -/
def CL_SUCCESS : Int := 0

/-- The status `CL_DEVICE_NOT_FOUND` of `CL/cl.h`. -/
def CL_DEVICE_NOT_FOUND : Int := -1

/-- The status `CL_BUILD_PROGRAM_FAILURE` of `CL/cl.h`. -/
def CL_BUILD_PROGRAM_FAILURE : Int := -11

/-- The status `CL_INVALID_DEVICE_TYPE` of `CL/cl.h`. -/
def CL_INVALID_DEVICE_TYPE : Int := -31

/-- The status `CL_INVALID_PLATFORM` of `CL/cl.h`. -/
def CL_INVALID_PLATFORM : Int := -32

/-- The status `CL_INVALID_DEVICE` of `CL/cl.h`. -/
def CL_INVALID_DEVICE : Int := -33

/-- The status `CL_INVALID_CONTEXT` of `CL/cl.h`. -/
def CL_INVALID_CONTEXT : Int := -34

/-! ## Data model -/

/-- The arithmetic of the C type `float` used by the program: the conversion
`(float)i`, the three operations of the host loop and of the kernel, and the
text that `%f` prints.  The literals `100.0f` and `0.0f` are `ofInt 100` and
`ofInt 0`. -/
structure FloatOps (F : Type) where
  ofInt : Int → F
  add : F → F → F
  mul : F → F → F
  div : F → F → F
  fmt : F → String

/-- The three buffer handles of `main`, named by the variable that holds them. -/
inductive Mem where
  | memIn1
  | memIn2
  | memOut
  deriving DecidableEq, Repr

/-- The runtime entry points called by the program, with the arguments that
tell the calls apart. -/
inductive Call where
  | clCreateContextFromType
  | clGetContextInfo
  | clCreateCommandQueue
  | clCreateProgramWithSource
  | clBuildProgram
  | clGetProgramBuildInfo
  | clUnloadCompiler
  | clCreateKernel
  | clCreateBuffer (buf : Mem)
  | clSetKernelArg (index : Nat) (buf : Mem)
  | clEnqueueNDRangeKernel (globalSize : Nat)
  | clEnqueueReadBuffer (buf : Mem)
  | clReleaseMemObject (buf : Mem)
  | clReleaseKernel
  | clReleaseProgram
  | clReleaseCommandQueue
  | clReleaseContext
  deriving DecidableEq, Repr

/-- One entry of the trace of runtime calls: the call and the status the
runtime returned for it (`none` for a call that returns no status; every
entry point this program calls returns one). -/
structure Event where
  call : Call
  status : Option Int
  deriving DecidableEq, Repr

/-- The call returned a status other than `CL_SUCCESS`. -/
def Event.failed (e : Event) : Bool :=
  match e.status with
  | some s => decide (s ≠ CL_SUCCESS)
  | none => false

/-- The calls whose returned status `main` or `printBuildLog` inspects: every
call except `clUnloadCompiler` and the release calls, whose return values the
program discards (main.cpp lines 75 and 162-168). -/
def Call.isChecked : Call → Bool
  | .clUnloadCompiler => false
  | .clReleaseMemObject _ => false
  | .clReleaseKernel => false
  | .clReleaseProgram => false
  | .clReleaseCommandQueue => false
  | .clReleaseContext => false
  | _ => true

/-- The release entry points. -/
def Call.isRelease : Call → Bool
  | .clReleaseMemObject _ => true
  | .clReleaseKernel => true
  | .clReleaseProgram => true
  | .clReleaseCommandQueue => true
  | .clReleaseContext => true
  | _ => false

/-- The entry points that create an object, dispatch the kernel or read a
buffer back. -/
def Call.isCreateDispatchRead : Call → Bool
  | .clCreateContextFromType => true
  | .clCreateCommandQueue => true
  | .clCreateProgramWithSource => true
  | .clCreateKernel => true
  | .clCreateBuffer _ => true
  | .clEnqueueNDRangeKernel _ => true
  | .clEnqueueReadBuffer _ => true
  | _ => false

/-- The three host arrays of the program. -/
inductive HostArray where
  | In1
  | In2
  | Out
  deriving DecidableEq, Repr

/-- What `clGetProgramBuildInfo` hands back in `printBuildLog`: its status,
the contents of the `MaxLogSize + 1` byte `buffer` after the call (cell `k`
holds `bytes k`) and the length it reports in `size_ret`. -/
structure BuildInfo where
  status : Int
  bytes : Nat → Nat
  size_ret : Nat

/-- Everything the environment hands to one run of the program.

* one status per status-checked call of `main`;
* the statuses returned by `clUnloadCompiler` and by the release calls, which
  `main` discards;
* `buildInfo`: the answer of `clGetProgramBuildInfo`; the runtime was given a
  buffer of `MaxLogSize` bytes, and a successful query reports at most the
  size it was given (`buildInfo_size`);
* `uninit`: the contents of the write-only buffer at its creation;
* `schedule n`: the order in which the work-items of a dispatch over a 1-D
  grid of `n` work-items run; each work-item of the grid runs once
  (`schedule_perm`);
* `stray a i`: what a read of the host array `a` at an index `i` past its end
  yields. -/
structure Runtime (F : Type) where
  createContext : Int
  getContextInfo : Int
  createCommandQueue : Int
  createProgram : Int
  buildProgram : Int
  createKernel : Int
  createBuffer : Mem → Int
  setKernelArg : Nat → Int
  enqueueNDRange : Int
  enqueueRead : Int
  unloadCompiler : Int
  releaseMemObject : Mem → Int
  releaseKernel : Int
  releaseProgram : Int
  releaseCommandQueue : Int
  releaseContext : Int
  buildInfo : BuildInfo
  buildInfo_size : buildInfo.status = CL_SUCCESS → buildInfo.size_ret ≤ MaxLogSize
  uninit : Nat → F
  schedule : Nat → List Nat
  schedule_perm : ∀ n, (schedule n).Perm (List.range n)
  stray : HostArray → Nat → F

/-- The state of a run: the host arrays `In1`, `In2`, `Out`, the device
buffers that exist, the argument slots of the kernel, the trace of runtime
calls and what was written to the two output streams (one entry per
`printf`/`fprintf` call, the text it wrote). -/
structure Machine (F : Type) where
  In1 : List F
  In2 : List F
  Out : List F
  mem : Mem → Option (List F)
  arg : Nat → Option Mem
  trace : List Event
  stderr : List String
  stdout : List String

/-- The result of a run: the exit code (`none` when the run left defined
behaviour through an out-of-range access) and the state it reached. -/
structure Outcome (F : Type) where
  exit : Option Int
  state : Machine F

/-! ## Primitive steps -/

/-- The indexed write `a[i] = v` of C: defined only when `i` is in range. -/
def store {α : Type} (a : List α) (i : Nat) (v : α) : Option (List α) :=
  if i < a.length then some (a.set i v) else none

/-- The indexed read `a[i]` of C, without a bounds check: the element when `i`
is in range, and what the memory past the end holds otherwise. -/
def cread {α : Type} (past : Nat → α) (a : List α) (i : Nat) : α :=
  match a[i]? with
  | some v => v
  | none => past i

/-- The loop `for (int i = 0; i < n; i++) body`. -/
def forLoop {σ : Type} (n : Nat) (body : Nat → σ → Option σ) (s : σ) : Option σ :=
  (List.range n).foldlM (fun s i => body i s) s

/-- The state before `main` starts: the static arrays are zero-initialised,
nothing exists on the device, nothing was written. -/
def Machine.init {F : Type} (A : FloatOps F) (n : Nat) : Machine F :=
  { In1 := List.replicate n (A.ofInt 0)
    In2 := List.replicate n (A.ofInt 0)
    Out := List.replicate n (A.ofInt 0)
    mem := fun _ => none
    arg := fun _ => none
    trace := []
    stderr := []
    stdout := [] }

/-- Appends a runtime call to the trace. -/
def Machine.record {F : Type} (m : Machine F) (c : Call) (status : Option Int) : Machine F :=
  { m with trace := m.trace ++ [⟨c, status⟩] }

/-- `fprintf(stderr, s)` for a text `s`. -/
def Machine.fprintf_stderr {F : Type} (m : Machine F) (s : String) : Machine F :=
  { m with stderr := m.stderr ++ [s] }

/-- `printf(s)` for a text `s`. -/
def Machine.printf {F : Type} (m : Machine F) (s : String) : Machine F :=
  { m with stdout := m.stdout ++ [s] }

/-- The number of lines in what was written to a stream: the number of
newline characters. -/
def lineCount (chunks : List String) : Nat :=
  (chunks.map (fun s => s.data.count '\n')).sum

/-! ## `printError` and `printBuildLog` -/

/-- `printError` (main.cpp lines 192-216): the `switch` on the status. -/
def printError {F : Type} (err : Int) (m : Machine F) : Machine F :=
  if err = CL_BUILD_PROGRAM_FAILURE then m.fprintf_stderr "Program Build failed\n"
  else if err = CL_DEVICE_NOT_FOUND then m.fprintf_stderr "Device not found\n"
  else if err = CL_INVALID_CONTEXT then m.fprintf_stderr "Invaild context\n"
  else if err = CL_INVALID_DEVICE then m.fprintf_stderr "Invaild device\n"
  else if err = CL_INVALID_DEVICE_TYPE then m.fprintf_stderr "Invaild device type\n"
  else if err = CL_INVALID_PLATFORM then m.fprintf_stderr "Invalid platform\n"
  else m.fprintf_stderr ("Unknown error code : " ++ toString err ++ "\n")

/-- The text `%s` prints for a `char` array: the bytes before the first zero
byte. -/
def cstring (buffer : List Nat) : String :=
  String.mk ((buffer.takeWhile (fun b => b ≠ 0)).map Char.ofNat)

/-- The `buffer` of `printBuildLog` after `clGetProgramBuildInfo` returned:
`MaxLogSize + 1` bytes. -/
def BuildInfo.buffer (r : BuildInfo) : List Nat :=
  (List.range (MaxLogSize + 1)).map r.bytes

/-- `printBuildLog` (main.cpp lines 173-190).  `none` when the write
`buffer[size_ret] = 0` is out of range. -/
def printBuildLog {F : Type} (r : BuildInfo) (m : Machine F) : Option (Machine F) :=
  let status := r.status
  let m := m.record .clGetProgramBuildInfo (some status)
  if status = CL_SUCCESS then
    match store r.buffer r.size_ret 0 with
    | none => none
    | some buffer =>
      let m := m.printf ">>>build log<<<\n"
      let m := m.printf (cstring buffer ++ "\n")
      let m := m.printf ">>> end of build log <<<\n"
      some m
  else
    let m := m.printf "clGetProgramInfo failed.\n"
    some (printError status m)

/-! ## The kernel and the runtime calls that touch device memory -/

/-- The kernel `addVector` (main.cpp lines 53-58) for the work-item
`index = get_global_id(0)`, on the device buffers bound to its three
parameters: `out[index] = in1[index] + in2[index]`. -/
def addVector {F : Type} (A : FloatOps F) (in1 in2 out : Mem) (index : Nat)
    (d : Mem → Option (List F)) : Option (Mem → Option (List F)) := do
  let b1 ← d in1
  let b2 ← d in2
  let b3 ← d out
  let x ← b1[index]?
  let y ← b2[index]?
  let b3 ← store b3 index (A.add x y)
  pure (Function.update d out (some b3))

/-- `clCreateBuffer`: on success the buffer exists with the given contents. -/
def Machine.createBuffer {F : Type} (m : Machine F) (h : Mem) (status : Int)
    (contents : List F) : Machine F :=
  let m := m.record (.clCreateBuffer h) (some status)
  if status = CL_SUCCESS then { m with mem := Function.update m.mem h (some contents) } else m

/-- `clSetKernelArg`: on success the slot `index` of the kernel holds `h`. -/
def Machine.setKernelArg {F : Type} (m : Machine F) (index : Nat) (h : Mem) (status : Int) :
    Machine F :=
  let m := m.record (.clSetKernelArg index h) (some status)
  if status = CL_SUCCESS then { m with arg := Function.update m.arg index (some h) } else m

/-- `clEnqueueNDRangeKernel` over a 1-D grid: on success the kernel runs once
per work-item of the schedule, on the buffers bound to slots 0, 1 and 2. -/
def Machine.enqueueNDRange {F : Type} (A : FloatOps F) (m : Machine F) (globalSize : Nat)
    (status : Int) (schedule : List Nat) : Option (Machine F) :=
  let m := m.record (.clEnqueueNDRangeKernel globalSize) (some status)
  if status = CL_SUCCESS then
    match m.arg 0, m.arg 1, m.arg 2 with
    | some a0, some a1, some a2 =>
      match schedule.foldlM (fun d index => addVector A a0 a1 a2 index d) m.mem with
      | some d => some { m with mem := d }
      | none => none
    | _, _, _ => none
  else some m

/-- The blocking `clEnqueueReadBuffer` of `size` elements from offset 0 into
the host array `Out`. -/
def Machine.enqueueRead {F : Type} (m : Machine F) (h : Mem) (size : Nat) (status : Int) :
    Option (Machine F) :=
  let m := m.record (.clEnqueueReadBuffer h) (some status)
  if status = CL_SUCCESS then
    match m.mem h with
    | some b =>
      if size ≤ b.length ∧ size ≤ m.Out.length then
        some { m with Out := b.take size ++ m.Out.drop size }
      else none
    | none => none
  else some m

/-! ## `main` -/

/-- The host initialisation loop (main.cpp lines 87-91). -/
def initHost {F : Type} (A : FloatOps F) (n : Nat) (m : Machine F) : Option (Machine F) :=
  forLoop n (fun i m => do
    let in1 ← store m.In1 i (A.mul (A.ofInt i) (A.ofInt 100))
    let in2 ← store m.In2 i (A.div (A.ofInt i) (A.ofInt 100))
    let out ← store m.Out i (A.ofInt 0)
    pure { m with In1 := in1, In2 := in2, Out := out }) m

/-- The text of one `printf("%f, %f, %f (%f) \n", a, b, c, d)`. -/
def row {F : Type} (A : FloatOps F) (a b c d : F) : String :=
  A.fmt a ++ ", " ++ A.fmt b ++ ", " ++ A.fmt c ++ " (" ++ A.fmt d ++ ") \n"

/-- The report loop (main.cpp lines 157-159): 100 rows, whatever the length
of the arrays. -/
def report {F : Type} (A : FloatOps F) (rt : Runtime F) (m : Machine F) :
    Option (Machine F) :=
  forLoop 100 (fun i m =>
    let a := cread (rt.stray .In1) m.In1 i
    let b := cread (rt.stray .In2) m.In2 i
    let c := cread (rt.stray .Out) m.Out i
    some (m.printf (row A a b c (A.add a b)))) m

/-- Step 11 of `main` (lines 161-170): the seven release calls, whose
returned statuses are discarded, then `return 0`. -/
def release {F : Type} (rt : Runtime F) (m : Machine F) : Outcome F :=
  let m := m.record (.clReleaseMemObject .memOut) (some (rt.releaseMemObject .memOut))
  let m := m.record (.clReleaseMemObject .memIn2) (some (rt.releaseMemObject .memIn2))
  let m := m.record (.clReleaseMemObject .memIn1) (some (rt.releaseMemObject .memIn1))
  let m := m.record .clReleaseKernel (some rt.releaseKernel)
  let m := m.record .clReleaseProgram (some rt.releaseProgram)
  let m := m.record .clReleaseCommandQueue (some rt.releaseCommandQueue)
  let m := m.record .clReleaseContext (some rt.releaseContext)
  ⟨some 0, m⟩

/-- A failure branch of `main`: the stage message, `printError(status)`,
`return code`. -/
def fail {F : Type} (m : Machine F) (msg : String) (status : Int) (code : Int) : Outcome F :=
  ⟨some code, printError status (m.fprintf_stderr msg)⟩

/-- Steps 9 to 11 of `main` (lines 139-170). -/
def mainRun {F : Type} (A : FloatOps F) (n : Nat) (rt : Runtime F) (m : Machine F) :
    Outcome F :=
  -- 9. Implement Kernel
  let status := rt.enqueueNDRange
  match m.enqueueNDRange A n status (rt.schedule n) with
  | none => ⟨none, m⟩
  | some m =>
  if status ≠ CL_SUCCESS then fail m "clEnqueueNDRangeKernel.\n" status 9 else
  -- 10. Get Result
  let status := rt.enqueueRead
  match m.enqueueRead .memOut n status with
  | none => ⟨none, m⟩
  | some m =>
  if status ≠ CL_SUCCESS then fail m "clEnqueueReadBuffer.\n" status 10 else
  let m := m.printf "(In1, In2, Out)\n"
  match report A rt m with
  | none => ⟨none, m⟩
  | some m =>
  -- 11. Release Resources
  release rt m

/-- Steps 7 and 8 of `main` (lines 86-137), then `mainRun`. -/
def mainSetup {F : Type} (A : FloatOps F) (n : Nat) (rt : Runtime F) (m : Machine F) :
    Outcome F :=
  -- 7. Create Memory Object
  match initHost A n m with
  | none => ⟨none, m⟩
  | some m =>
  let status := rt.createBuffer .memIn1
  let m := m.createBuffer .memIn1 status (m.In1.take n)
  if status ≠ CL_SUCCESS then fail m "clCreateBuffer for memIn1 failed.\n" status 7 else
  let status := rt.createBuffer .memIn2
  let m := m.createBuffer .memIn2 status (m.In2.take n)
  if status ≠ CL_SUCCESS then fail m "clCreateBuffer for memIn2 failed.\n" status 7 else
  let status := rt.createBuffer .memOut
  let m := m.createBuffer .memOut status ((List.range n).map rt.uninit)
  if status ≠ CL_SUCCESS then fail m "clCreateBuffer for memOut failed.\n" status 7 else
  -- 8. Set Kernel Arg
  let status := rt.setKernelArg 0
  let m := m.setKernelArg 0 .memIn1 status
  if status ≠ CL_SUCCESS then fail m "clSetKernelArg for memIn1 failed.\n" status 8 else
  let status := rt.setKernelArg 1
  let m := m.setKernelArg 1 .memIn2 status
  if status ≠ CL_SUCCESS then fail m "clSetKernelArg for memIn2 failed.\n" status 8 else
  let status := rt.setKernelArg 2
  let m := m.setKernelArg 2 .memOut status
  if status ≠ CL_SUCCESS then fail m "clSetKernelArg for memOut failed.\n" status 8 else
  mainRun A n rt m

/-- The function `main` (main.cpp lines 20-171) for an element count `n`. -/
def mainWith {F : Type} (A : FloatOps F) (n : Nat) (rt : Runtime F) : Outcome F :=
  let m := Machine.init A n
  -- 1. Create Context
  let status := rt.createContext
  let m := m.record .clCreateContextFromType (some status)
  if status ≠ CL_SUCCESS then fail m "clCreateContextFromType failed.\n" status 1 else
  -- 2. Get Device in Context
  let status := rt.getContextInfo
  let m := m.record .clGetContextInfo (some status)
  if status ≠ CL_SUCCESS then fail m "clGetContextInfo failed.\n" status 2 else
  -- 3. Create Command Queue
  let status := rt.createCommandQueue
  let m := m.record .clCreateCommandQueue (some status)
  if status ≠ CL_SUCCESS then fail m "clCreateCommandQueue failed.\n" status 3 else
  -- 4. Create Program Object
  let status := rt.createProgram
  let m := m.record .clCreateProgramWithSource (some status)
  if status ≠ CL_SUCCESS then fail m "clCreateProgramWithSource failed.\n" status 4 else
  -- 5. Build the Program
  let status := rt.buildProgram
  let m := m.record .clBuildProgram (some status)
  if status ≠ CL_SUCCESS then
    let m := m.fprintf_stderr "clBuildProgram failed.\n"
    let m := printError status m
    match printBuildLog rt.buildInfo m with
    | none => ⟨none, m⟩
    | some m => ⟨some 5, m⟩
  else
  let m := m.record .clUnloadCompiler (some rt.unloadCompiler)
  -- 6. Create Kernel
  let status := rt.createKernel
  let m := m.record .clCreateKernel (some status)
  if status ≠ CL_SUCCESS then fail m "clCreateKernel failed.\n" status 6 else
  mainSetup A n rt m

/-- The program: `main` with the element count of the source. -/
def main {F : Type} (A : FloatOps F) (rt : Runtime F) : Outcome F :=
  mainWith A NumElemets rt


/-! ## Definitions used by the statements and the proofs -/

/-- The value the host loop writes to `In1[i]`: `(float)i * 100.0f`. -/
def in1Value {F : Type} (A : FloatOps F) (i : Nat) : F :=
  A.mul (A.ofInt i) (A.ofInt 100)

/-- The value the host loop writes to `In2[i]`: `(float)i / 100.0f`. -/
def in2Value {F : Type} (A : FloatOps F) (i : Nat) : F :=
  A.div (A.ofInt i) (A.ofInt 100)

/-- The sum of the two inputs at `i`. -/
def sumValue {F : Type} (A : FloatOps F) (i : Nat) : F :=
  A.add (in1Value A i) (in2Value A i)

/-- The rows the report loop prints for host arrays `in1`, `in2`, `out`: row
`i` shows the three values read at `i` and the host-computed sum of the first
two. -/
def reportRows {F : Type} (A : FloatOps F) (rt : Runtime F) (in1 in2 out : List F)
    (k : Nat) : List String :=
  (List.range k).map (fun i =>
    row A (cread (rt.stray .In1) in1 i) (cread (rt.stray .In2) in2 i)
      (cread (rt.stray .Out) out i)
      (A.add (cread (rt.stray .In1) in1 i) (cread (rt.stray .In2) in2 i)))

/-- The state after a successful dispatch and read-back. -/
def afterRead {F : Type} (A : FloatOps F) (n : Nat) (rt : Runtime F) (m : Machine F) :
    Machine F :=
  { m with
    Out := (List.range n).map (sumValue A)
    mem := Function.update m.mem .memOut (some ((List.range n).map (sumValue A)))
    trace := m.trace ++ [⟨.clEnqueueNDRangeKernel n, some rt.enqueueNDRange⟩,
      ⟨.clEnqueueReadBuffer .memOut, some rt.enqueueRead⟩] }

/-- The state the driver is in when it reaches the dispatch. -/
structure Ready {F : Type} (A : FloatOps F) (n : Nat) (m : Machine F) : Prop where
  arg0 : m.arg 0 = some .memIn1
  arg1 : m.arg 1 = some .memIn2
  arg2 : m.arg 2 = some .memOut
  mem1 : m.mem .memIn1 = some ((List.range n).map (in1Value A))
  mem2 : m.mem .memIn2 = some ((List.range n).map (in2Value A))
  mem3 : ∃ b, m.mem .memOut = some b ∧ b.length = n
  in1 : m.In1 = (List.range n).map (in1Value A)
  in2 : m.In2 = (List.range n).map (in2Value A)
  out : m.Out.length = n


/-- The line `printError` writes for a status. -/
def errorText (err : Int) : String :=
  if err = CL_BUILD_PROGRAM_FAILURE then "Program Build failed\n"
  else if err = CL_DEVICE_NOT_FOUND then "Device not found\n"
  else if err = CL_INVALID_CONTEXT then "Invaild context\n"
  else if err = CL_INVALID_DEVICE then "Invaild device\n"
  else if err = CL_INVALID_DEVICE_TYPE then "Invaild device type\n"
  else if err = CL_INVALID_PLATFORM then "Invalid platform\n"
  else "Unknown error code : " ++ toString err ++ "\n"

/-- The calls of a run in which every status-checked call succeeds, up to the
read-back, with the statuses the runtime returns. -/
def checkedCalls {F : Type} (n : Nat) (rt : Runtime F) : List Event :=
  [ ⟨.clCreateContextFromType, some rt.createContext⟩,
    ⟨.clGetContextInfo, some rt.getContextInfo⟩,
    ⟨.clCreateCommandQueue, some rt.createCommandQueue⟩,
    ⟨.clCreateProgramWithSource, some rt.createProgram⟩,
    ⟨.clBuildProgram, some rt.buildProgram⟩,
    ⟨.clUnloadCompiler, some rt.unloadCompiler⟩,
    ⟨.clCreateKernel, some rt.createKernel⟩,
    ⟨.clCreateBuffer .memIn1, some (rt.createBuffer .memIn1)⟩,
    ⟨.clCreateBuffer .memIn2, some (rt.createBuffer .memIn2)⟩,
    ⟨.clCreateBuffer .memOut, some (rt.createBuffer .memOut)⟩,
    ⟨.clSetKernelArg 0 .memIn1, some (rt.setKernelArg 0)⟩,
    ⟨.clSetKernelArg 1 .memIn2, some (rt.setKernelArg 1)⟩,
    ⟨.clSetKernelArg 2 .memOut, some (rt.setKernelArg 2)⟩,
    ⟨.clEnqueueNDRangeKernel n, some rt.enqueueNDRange⟩,
    ⟨.clEnqueueReadBuffer .memOut, some rt.enqueueRead⟩ ]

/-- The release calls of step 11, in the order of the source, with the
statuses the runtime returns. -/
def releaseCalls {F : Type} (rt : Runtime F) : List Event :=
  [ ⟨.clReleaseMemObject .memOut, some (rt.releaseMemObject .memOut)⟩,
    ⟨.clReleaseMemObject .memIn2, some (rt.releaseMemObject .memIn2)⟩,
    ⟨.clReleaseMemObject .memIn1, some (rt.releaseMemObject .memIn1)⟩,
    ⟨.clReleaseKernel, some rt.releaseKernel⟩,
    ⟨.clReleaseProgram, some rt.releaseProgram⟩,
    ⟨.clReleaseCommandQueue, some rt.releaseCommandQueue⟩,
    ⟨.clReleaseContext, some rt.releaseContext⟩ ]

/-- What a run shows of itself: exit code, trace and error stream. -/
structure Observed where
  exit : Option Int
  trace : List Event
  stderr : List String

/-- The observable part of an outcome. -/
def Outcome.observed {F : Type} (o : Outcome F) : Observed :=
  ⟨o.exit, o.state.trace, o.state.stderr⟩

/-- The observable part of a run, read off the statuses: the run stops at the
first status-checked call that fails.  `mainWith_observed` proves that this is
what `mainWith` does. -/
def expected {F : Type} (n : Nat) (rt : Runtime F) : Observed :=
  let c := checkedCalls n rt
  if rt.createContext ≠ CL_SUCCESS then
    ⟨some 1, c.take 1, ["clCreateContextFromType failed.\n", errorText rt.createContext]⟩
  else if rt.getContextInfo ≠ CL_SUCCESS then
    ⟨some 2, c.take 2, ["clGetContextInfo failed.\n", errorText rt.getContextInfo]⟩
  else if rt.createCommandQueue ≠ CL_SUCCESS then
    ⟨some 3, c.take 3, ["clCreateCommandQueue failed.\n", errorText rt.createCommandQueue]⟩
  else if rt.createProgram ≠ CL_SUCCESS then
    ⟨some 4, c.take 4, ["clCreateProgramWithSource failed.\n", errorText rt.createProgram]⟩
  else if rt.buildProgram ≠ CL_SUCCESS then
    ⟨some 5, c.take 5 ++ [⟨.clGetProgramBuildInfo, some rt.buildInfo.status⟩],
      ["clBuildProgram failed.\n", errorText rt.buildProgram] ++
        (if rt.buildInfo.status = CL_SUCCESS then [] else [errorText rt.buildInfo.status])⟩
  else if rt.createKernel ≠ CL_SUCCESS then
    ⟨some 6, c.take 7, ["clCreateKernel failed.\n", errorText rt.createKernel]⟩
  else if rt.createBuffer .memIn1 ≠ CL_SUCCESS then
    ⟨some 7, c.take 8,
      ["clCreateBuffer for memIn1 failed.\n", errorText (rt.createBuffer .memIn1)]⟩
  else if rt.createBuffer .memIn2 ≠ CL_SUCCESS then
    ⟨some 7, c.take 9,
      ["clCreateBuffer for memIn2 failed.\n", errorText (rt.createBuffer .memIn2)]⟩
  else if rt.createBuffer .memOut ≠ CL_SUCCESS then
    ⟨some 7, c.take 10,
      ["clCreateBuffer for memOut failed.\n", errorText (rt.createBuffer .memOut)]⟩
  else if rt.setKernelArg 0 ≠ CL_SUCCESS then
    ⟨some 8, c.take 11, ["clSetKernelArg for memIn1 failed.\n", errorText (rt.setKernelArg 0)]⟩
  else if rt.setKernelArg 1 ≠ CL_SUCCESS then
    ⟨some 8, c.take 12, ["clSetKernelArg for memIn2 failed.\n", errorText (rt.setKernelArg 1)]⟩
  else if rt.setKernelArg 2 ≠ CL_SUCCESS then
    ⟨some 8, c.take 13, ["clSetKernelArg for memOut failed.\n", errorText (rt.setKernelArg 2)]⟩
  else if rt.enqueueNDRange ≠ CL_SUCCESS then
    ⟨some 9, c.take 14, ["clEnqueueNDRangeKernel.\n", errorText rt.enqueueNDRange]⟩
  else if rt.enqueueRead ≠ CL_SUCCESS then
    ⟨some 10, c, ["clEnqueueReadBuffer.\n", errorText rt.enqueueRead]⟩
  else ⟨some 0, c ++ releaseCalls rt, []⟩

/-- The state in which `main` reaches step 7. -/
def atSetup {F : Type} (A : FloatOps F) (n : Nat) (rt : Runtime F) : Machine F :=
  { Machine.init A n with trace := (checkedCalls n rt).take 7 }

/-- The state in which `main` reaches step 9. -/
def atRun {F : Type} (A : FloatOps F) (n : Nat) (rt : Runtime F) : Machine F :=
  { In1 := (List.range n).map (in1Value A)
    In2 := (List.range n).map (in2Value A)
    Out := (List.range n).map (fun _ => A.ofInt 0)
    mem := Function.update (Function.update (Function.update (fun _ => none)
      .memIn1 (some ((List.range n).map (in1Value A))))
      .memIn2 (some ((List.range n).map (in2Value A))))
      .memOut (some ((List.range n).map rt.uninit))
    arg := Function.update (Function.update (Function.update (fun _ => none)
      0 (some .memIn1)) 1 (some .memIn2)) 2 (some .memOut)
    trace := (checkedCalls n rt).take 13
    stderr := []
    stdout := [] }


/-- Every status-checked call of `main` returns `CL_SUCCESS`. -/
def Runtime.allSucceed {F : Type} (rt : Runtime F) : Prop :=
  rt.createContext = CL_SUCCESS ∧ rt.getContextInfo = CL_SUCCESS ∧
  rt.createCommandQueue = CL_SUCCESS ∧ rt.createProgram = CL_SUCCESS ∧
  rt.buildProgram = CL_SUCCESS ∧ rt.createKernel = CL_SUCCESS ∧
  rt.createBuffer .memIn1 = CL_SUCCESS ∧ rt.createBuffer .memIn2 = CL_SUCCESS ∧
  rt.createBuffer .memOut = CL_SUCCESS ∧ rt.setKernelArg 0 = CL_SUCCESS ∧
  rt.setKernelArg 1 = CL_SUCCESS ∧ rt.setKernelArg 2 = CL_SUCCESS ∧
  rt.enqueueNDRange = CL_SUCCESS ∧ rt.enqueueRead = CL_SUCCESS

/-- The failure points of the driver, in the order of the calls. -/
inductive Stage where
  | acquireContext
  | enumerateDevices
  | createQueue
  | createProgram
  | buildProgram
  | extractKernel
  | allocateBuffers
  | bindArguments
  | dispatch
  | retrieveResult
  deriving DecidableEq, Repr

/-- The status-checked calls of `main` in program order, each with the
failure point it belongs to and the status the runtime returns. -/
def Runtime.checks {F : Type} (rt : Runtime F) : List (Stage × Int) :=
  [ (.acquireContext, rt.createContext),
    (.enumerateDevices, rt.getContextInfo),
    (.createQueue, rt.createCommandQueue),
    (.createProgram, rt.createProgram),
    (.buildProgram, rt.buildProgram),
    (.extractKernel, rt.createKernel),
    (.allocateBuffers, rt.createBuffer .memIn1),
    (.allocateBuffers, rt.createBuffer .memIn2),
    (.allocateBuffers, rt.createBuffer .memOut),
    (.bindArguments, rt.setKernelArg 0),
    (.bindArguments, rt.setKernelArg 1),
    (.bindArguments, rt.setKernelArg 2),
    (.dispatch, rt.enqueueNDRange),
    (.retrieveResult, rt.enqueueRead) ]

/-- The failure point of the first status-checked call that fails, if any. -/
def Runtime.firstFailure {F : Type} (rt : Runtime F) : Option Stage :=
  (rt.checks.find? (fun p => decide (p.2 ≠ CL_SUCCESS))).map (fun p => p.1)

/-- The step numbers of section 4.1 of the specification: program creation
and build are both its step 4, kernel extraction is its step 5. -/
def Stage.specStep : Stage → Int
  | .acquireContext => 1
  | .enumerateDevices => 2
  | .createQueue => 3
  | .createProgram => 4
  | .buildProgram => 4
  | .extractKernel => 5
  | .allocateBuffers => 7
  | .bindArguments => 8
  | .dispatch => 9
  | .retrieveResult => 10

/-- The step numbers of the comments of `main.cpp`: program creation is step
4, the build step 5, kernel creation step 6. -/
def Stage.sourceStep : Stage → Int
  | .acquireContext => 1
  | .enumerateDevices => 2
  | .createQueue => 3
  | .createProgram => 4
  | .buildProgram => 5
  | .extractKernel => 6
  | .allocateBuffers => 7
  | .bindArguments => 8
  | .dispatch => 9
  | .retrieveResult => 10

/-- The six digits `%f` prints after the decimal point. -/
def sixDigits (k : Nat) : String :=
  let s := toString (k % 1000000)
  String.mk (List.replicate (6 - s.length) '0') ++ s

/-- Exact arithmetic: `float` read as the rationals, without rounding; `%f`
prints the value rounded to six decimals. -/
def exact : FloatOps ℚ where
  ofInt := fun i => (i : ℚ)
  add := fun a b => a + b
  mul := fun a b => a * b
  div := fun a b => a / b
  fmt := fun q =>
    let k := (⌊|q| * 1000000 + 1 / 2⌋).toNat
    (if q < 0 then "-" else "") ++ toString (k / 1000000) ++ "." ++ sixDigits k

/-- A build-log query that fails with `CL_INVALID_VALUE` (-30). -/
def logFails : BuildInfo := ⟨-30, fun _ => 0, 0⟩

/-- A build-log query that succeeds with the three bytes `e`, `r`, `r` and
the terminating zero, reported length 4. -/
def logErr : BuildInfo :=
  ⟨0, fun k => if k = 0 then 101 else if k = 1 then 114 else if k = 2 then 114 else 0, 4⟩

/-- A runtime in exact arithmetic whose status-checked calls return the given
statuses and whose other calls succeed; the write-only buffer starts zeroed,
the work-items run in increasing order and the memory past the end of the host
arrays holds zeros. -/
def Runtime.ofStatuses (ctx info queue prog build kernel : Int) (buf : Mem → Int)
    (arg : Nat → Int) (run read : Int) (log : BuildInfo)
    (hlog : log.status = CL_SUCCESS → log.size_ret ≤ MaxLogSize) : Runtime ℚ :=
  { createContext := ctx, getContextInfo := info, createCommandQueue := queue,
    createProgram := prog, buildProgram := build, createKernel := kernel,
    createBuffer := buf, setKernelArg := arg, enqueueNDRange := run, enqueueRead := read,
    unloadCompiler := 0, releaseMemObject := fun _ => 0, releaseKernel := 0,
    releaseProgram := 0, releaseCommandQueue := 0, releaseContext := 0,
    buildInfo := log, buildInfo_size := hlog,
    uninit := fun _ => 0, schedule := List.range, schedule_perm := fun _ => List.Perm.refl _,
    stray := fun _ _ => 0 }

/-- The run in which every call succeeds. -/
def rtOK : Runtime ℚ :=
  Runtime.ofStatuses 0 0 0 0 0 0 (fun _ => 0) (fun _ => 0) 0 0 logFails (by decide)

/-- The run in which every status-checked call succeeds and the release of
the output buffer returns `CL_OUT_OF_RESOURCES` (-5). -/
def rtReleaseFails : Runtime ℚ :=
  { rtOK with releaseMemObject := fun b => if b = .memOut then -5 else 0 }

/-- The run in which context creation fails with `CL_DEVICE_NOT_FOUND`. -/
def rtNoDevice : Runtime ℚ :=
  Runtime.ofStatuses (-1) 0 0 0 0 0 (fun _ => 0) (fun _ => 0) 0 0 logFails (by decide)

/-- The run in which the build fails and the build-log query fails too. -/
def rtBuildNoLog : Runtime ℚ :=
  Runtime.ofStatuses 0 0 0 0 (-11) 0 (fun _ => 0) (fun _ => 0) 0 0 logFails (by decide)

/-- The run in which the build fails and the build log is `err`. -/
def rtBuildLog : Runtime ℚ :=
  Runtime.ofStatuses 0 0 0 0 (-11) 0 (fun _ => 0) (fun _ => 0) 0 0 logErr (by decide)

/-- The run in which kernel creation fails with `CL_INVALID_KERNEL_NAME` (-46). -/
def rtNoKernel : Runtime ℚ :=
  Runtime.ofStatuses 0 0 0 0 0 (-46) (fun _ => 0) (fun _ => 0) 0 0 logFails (by decide)

instance {F : Type} (rt : Runtime F) : Decidable rt.allSucceed := by
  unfold Runtime.allSucceed
  infer_instance
/-! ## Loops -/

theorem forLoop_zero {σ : Type} (body : Nat → σ → Option σ) (s : σ) :
    forLoop 0 body s = some s := rfl

theorem forLoop_succ {σ : Type} (k : Nat) (body : Nat → σ → Option σ) (s : σ) :
    forLoop (k + 1) body s = (forLoop k body s).bind (body k) := by
  simp only [forLoop, List.range_succ, List.foldlM_append]
  cases h : List.foldlM (fun s i => body i s) s (List.range k) with
  | none => rfl
  | some s1 => simp [List.foldlM]

/-! ## Array writes -/

theorem store_fill {α : Type} (l : List α) (g : Nat → α) (k : Nat) (hk : k < l.length) :
    store ((List.range k).map g ++ l.drop k) k (g k)
      = some ((List.range (k + 1)).map g ++ l.drop (k + 1)) := by
  have hlen : k < ((List.range k).map g ++ l.drop k).length := by
    simp; omega
  unfold store
  rw [if_pos hlen]
  congr 1
  rw [List.set_append]
  simp only [List.length_map, List.length_range, lt_self_iff_false, if_false, Nat.sub_self,
    List.range_succ, List.map_append, List.map_cons, List.map_nil, List.append_assoc,
    List.singleton_append]
  rw [List.drop_eq_getElem_cons hk]
  rfl

theorem drop_length_self {α : Type} (l : List α) (n : Nat) (h : l.length = n) :
    l.drop n = [] := by
  subst h
  simp


theorem initHost_loop {F : Type} (A : FloatOps F) (m : Machine F) (k : Nat)
    (h1 : k ≤ m.In1.length) (h2 : k ≤ m.In2.length) (h3 : k ≤ m.Out.length) :
    forLoop k (fun i m => do
        let in1 ← store m.In1 i (A.mul (A.ofInt i) (A.ofInt 100))
        let in2 ← store m.In2 i (A.div (A.ofInt i) (A.ofInt 100))
        let out ← store m.Out i (A.ofInt 0)
        pure { m with In1 := in1, In2 := in2, Out := out }) m
      = some { m with
          In1 := (List.range k).map (in1Value A) ++ m.In1.drop k
          In2 := (List.range k).map (in2Value A) ++ m.In2.drop k
          Out := (List.range k).map (fun _ => A.ofInt 0) ++ m.Out.drop k } := by
  induction k with
  | zero => simp [forLoop_zero]
  | succ k ih =>
    rw [forLoop_succ, ih (by omega) (by omega) (by omega)]
    have e1 := store_fill m.In1 (in1Value A) k (by omega)
    have e2 := store_fill m.In2 (in2Value A) k (by omega)
    have e3 := store_fill m.Out (fun _ => A.ofInt 0) k (by omega)
    simp only [in1Value, in2Value] at e1 e2 e3
    simp only [Option.some_bind, bind, Option.bind, e1, e2, e3, pure, in1Value, in2Value]

theorem initHost_eq {F : Type} (A : FloatOps F) (n : Nat) (m : Machine F)
    (h1 : m.In1.length = n) (h2 : m.In2.length = n) (h3 : m.Out.length = n) :
    initHost A n m = some { m with
      In1 := (List.range n).map (in1Value A)
      In2 := (List.range n).map (in2Value A)
      Out := (List.range n).map (fun _ => A.ofInt 0) } := by
  unfold initHost
  rw [initHost_loop A m n (by omega) (by omega) (by omega)]
  simp [drop_length_self _ _ h1, drop_length_self _ _ h2, drop_length_self _ _ h3]

/-! ## The kernel -/

theorem addVector_step {F : Type} (A : FloatOps F) (in1 in2 out : Mem) (n j : Nat)
    (g1 g2 : Nat → F) (d : Mem → Option (List F)) (b3 : List F)
    (hd1 : d in1 = some ((List.range n).map g1)) (hd2 : d in2 = some ((List.range n).map g2))
    (hd3 : d out = some b3) (hlen : b3.length = n) (hj : j < n) :
    addVector A in1 in2 out j d
      = some (Function.update d out (some (b3.set j (A.add (g1 j) (g2 j))))) := by
  simp [addVector, hd1, hd2, hd3, store, hlen, hj, bind, Option.bind]

theorem dispatch_inv {F : Type} (A : FloatOps F) (in1 in2 out : Mem) (n : Nat)
    (g1 g2 : Nat → F) (h1 : in1 ≠ out) (h2 : in2 ≠ out) (l : List Nat) (hl : ∀ j ∈ l, j < n) :
    ∀ (d : Mem → Option (List F)) (b3 : List F),
      d in1 = some ((List.range n).map g1) → d in2 = some ((List.range n).map g2) →
      d out = some b3 → b3.length = n →
      ∃ b, l.foldlM (fun d index => addVector A in1 in2 out index d) d
            = some (Function.update d out (some b))
          ∧ b.length = n
          ∧ ∀ i, (i ∈ l ∨ b3[i]? = some (A.add (g1 i) (g2 i))) → i < n →
              b[i]? = some (A.add (g1 i) (g2 i)) := by
  induction l with
  | nil =>
    intro d b3 _ _ hd3 hlen
    refine ⟨b3, ?_, hlen, ?_⟩
    · simp [← hd3, pure]
    · intro i hi _
      simpa using hi
  | cons j l ih =>
    intro d b3 hd1 hd2 hd3 hlen
    have hj : j < n := hl j (List.mem_cons_self _ _)
    have hstep := addVector_step A in1 in2 out n j g1 g2 d b3 hd1 hd2 hd3 hlen hj
    obtain ⟨b, hb, hblen, hbv⟩ := ih (fun x hx => hl x (List.mem_cons_of_mem _ hx))
      (Function.update d out (some (b3.set j (A.add (g1 j) (g2 j)))))
      (b3.set j (A.add (g1 j) (g2 j)))
      (by rw [Function.update_noteq h1]; exact hd1)
      (by rw [Function.update_noteq h2]; exact hd2)
      (by simp) (by simp [hlen])
    refine ⟨b, ?_, hblen, ?_⟩
    · rw [List.foldlM_cons, hstep]
      simp only [Option.some_bind, bind, Option.bind]
      rw [hb, Function.update_idem]
    · intro i hi hin
      apply hbv i ?_ hin
      by_cases hij : i = j
      · right
        subst hij
        simp [hlen, hin]
      · rcases hi with hi | hi
        · left
          simpa [hij] using hi
        · right
          rw [List.getElem?_set_ne (Ne.symm hij)]
          exact hi

theorem dispatch_eq {F : Type} (A : FloatOps F) (in1 in2 out : Mem) (n : Nat)
    (g1 g2 : Nat → F) (h1 : in1 ≠ out) (h2 : in2 ≠ out) (l : List Nat)
    (hl : l.Perm (List.range n)) (d : Mem → Option (List F)) (b3 : List F)
    (hd1 : d in1 = some ((List.range n).map g1)) (hd2 : d in2 = some ((List.range n).map g2))
    (hd3 : d out = some b3) (hlen : b3.length = n) :
    l.foldlM (fun d index => addVector A in1 in2 out index d) d
      = some (Function.update d out
          (some ((List.range n).map (fun i => A.add (g1 i) (g2 i))))) := by
  have hmem : ∀ j, j ∈ l ↔ j < n := fun j => by rw [hl.mem_iff, List.mem_range]
  obtain ⟨b, hb, hblen, hbv⟩ := dispatch_inv A in1 in2 out n g1 g2 h1 h2 l
    (fun j hj => (hmem j).1 hj) d b3 hd1 hd2 hd3 hlen
  rw [hb]
  have hbeq : b = (List.range n).map (fun i => A.add (g1 i) (g2 i)) := by
    apply List.ext_getElem?
    intro i
    by_cases hi : i < n
    · rw [hbv i (Or.inl ((hmem i).2 hi)) hi]
      simp [hi]
    · rw [List.getElem?_eq_none (by omega), List.getElem?_eq_none (by simp; omega)]
  rw [hbeq]

/-! ## The report loop -/

theorem report_loop {F : Type} (A : FloatOps F) (rt : Runtime F) (m : Machine F) (k : Nat) :
    forLoop k (fun i m =>
        let a := cread (rt.stray .In1) m.In1 i
        let b := cread (rt.stray .In2) m.In2 i
        let c := cread (rt.stray .Out) m.Out i
        some (m.printf (row A a b c (A.add a b)))) m
      = some { m with stdout := m.stdout ++ reportRows A rt m.In1 m.In2 m.Out k } := by
  induction k with
  | zero => simp [forLoop_zero, reportRows]
  | succ k ih =>
    rw [forLoop_succ, ih]
    simp [Machine.printf, reportRows, List.range_succ]

theorem report_eq {F : Type} (A : FloatOps F) (rt : Runtime F) (m : Machine F) :
    report A rt m
      = some { m with stdout := m.stdout ++ reportRows A rt m.In1 m.In2 m.Out 100 } :=
  report_loop A rt m 100

/-! ## Normal forms of `main` -/

theorem enqueueNDRange_ok {F : Type} (A : FloatOps F) (n : Nat) (rt : Runtime F)
    (m : Machine F) (hm : Ready A n m) (hs : rt.enqueueNDRange = CL_SUCCESS) :
    m.enqueueNDRange A n rt.enqueueNDRange (rt.schedule n)
      = some { m with
          mem := Function.update m.mem .memOut (some ((List.range n).map (sumValue A)))
          trace := m.trace ++ [⟨.clEnqueueNDRangeKernel n, some rt.enqueueNDRange⟩] } := by
  obtain ⟨b, hb, hblen⟩ := hm.mem3
  have hd := dispatch_eq A .memIn1 .memIn2 .memOut n (in1Value A) (in2Value A)
    (by decide) (by decide) (rt.schedule n) (rt.schedule_perm n) m.mem b hm.mem1 hm.mem2 hb hblen
  simp only [Machine.enqueueNDRange, Machine.record, hs, if_true, hm.arg0, hm.arg1, hm.arg2, hd]
  rfl

theorem enqueueNDRange_fail {F : Type} (A : FloatOps F) (n : Nat) (m : Machine F)
    (status : Int) (l : List Nat) (hs : status ≠ CL_SUCCESS) :
    m.enqueueNDRange A n status l = some (m.record (.clEnqueueNDRangeKernel n) (some status)) := by
  simp [Machine.enqueueNDRange, hs]

theorem enqueueRead_ok {F : Type} (m : Machine F) (h : Mem) (n : Nat) (status : Int)
    (b : List F) (hb : m.mem h = some b) (hblen : b.length = n) (hout : m.Out.length = n)
    (hs : status = CL_SUCCESS) :
    m.enqueueRead h n status
      = some { m with Out := b, trace := m.trace ++ [⟨.clEnqueueReadBuffer h, some status⟩] } := by
  have htake : List.take n b = b := List.take_of_length_le (by omega)
  simp [Machine.enqueueRead, Machine.record, hs, hb, hblen, hout, htake,
    drop_length_self _ _ hout]

theorem enqueueRead_fail {F : Type} (m : Machine F) (h : Mem) (n : Nat) (status : Int)
    (hs : status ≠ CL_SUCCESS) :
    m.enqueueRead h n status = some (m.record (.clEnqueueReadBuffer h) (some status)) := by
  simp [Machine.enqueueRead, hs]

theorem mainRun_eq {F : Type} (A : FloatOps F) (n : Nat) (rt : Runtime F) (m : Machine F)
    (hm : Ready A n m) :
    mainRun A n rt m =
      if rt.enqueueNDRange ≠ CL_SUCCESS then
        fail (m.record (.clEnqueueNDRangeKernel n) (some rt.enqueueNDRange))
          "clEnqueueNDRangeKernel.\n" rt.enqueueNDRange 9
      else if rt.enqueueRead ≠ CL_SUCCESS then
        fail { m with
            mem := Function.update m.mem .memOut (some ((List.range n).map (sumValue A)))
            trace := m.trace ++ [⟨.clEnqueueNDRangeKernel n, some rt.enqueueNDRange⟩,
              ⟨.clEnqueueReadBuffer .memOut, some rt.enqueueRead⟩] }
          "clEnqueueReadBuffer.\n" rt.enqueueRead 10
      else
        release rt { afterRead A n rt m with
          stdout := m.stdout ++ "(In1, In2, Out)\n" ::
            reportRows A rt m.In1 m.In2 ((List.range n).map (sumValue A)) 100 } := by
  unfold mainRun
  by_cases h9 : rt.enqueueNDRange = CL_SUCCESS
  · simp only [enqueueNDRange_ok A n rt m hm h9]
    by_cases h10 : rt.enqueueRead = CL_SUCCESS
    · have hr := report_eq A rt
        ({ afterRead A n rt m with stdout := m.stdout ++ ["(In1, In2, Out)\n"] })
      simp only [afterRead] at hr
      have hread := enqueueRead_ok
        ({ m with
            mem := Function.update m.mem .memOut (some ((List.range n).map (sumValue A)))
            trace := m.trace ++ [⟨.clEnqueueNDRangeKernel n, some rt.enqueueNDRange⟩] })
        .memOut n rt.enqueueRead ((List.range n).map (sumValue A)) (by simp) (by simp)
        hm.out h10
      rw [hread]
      simp only [Machine.printf, List.append_assoc, List.singleton_append, List.nil_append,
        List.cons_append]
      rw [hr]
      simp [h9, h10, afterRead]
    · have hread := enqueueRead_fail
        ({ m with
            mem := Function.update m.mem .memOut (some ((List.range n).map (sumValue A)))
            trace := m.trace ++ [⟨.clEnqueueNDRangeKernel n, some rt.enqueueNDRange⟩] })
        .memOut n rt.enqueueRead h10
      rw [hread]
      simp [Machine.record, h9, h10]
  · simp [enqueueNDRange_fail A n m _ _ h9, h9]

theorem printError_eq {F : Type} (err : Int) (m : Machine F) :
    printError err m = m.fprintf_stderr (errorText err) := by
  unfold printError errorText
  split_ifs <;> rfl

theorem fail_observed {F : Type} (m : Machine F) (msg : String) (status code : Int) :
    (fail m msg status code).observed
      = ⟨some code, m.trace, m.stderr ++ [msg, errorText status]⟩ := by
  simp [fail, Outcome.observed, printError_eq, Machine.fprintf_stderr]

theorem mainWith_prologue {F : Type} (A : FloatOps F) (n : Nat) (rt : Runtime F)
    (h1 : rt.createContext = CL_SUCCESS) (h2 : rt.getContextInfo = CL_SUCCESS)
    (h3 : rt.createCommandQueue = CL_SUCCESS) (h4 : rt.createProgram = CL_SUCCESS)
    (h5 : rt.buildProgram = CL_SUCCESS) (h6 : rt.createKernel = CL_SUCCESS) :
    mainWith A n rt = mainSetup A n rt (atSetup A n rt) := by
  simp [mainWith, h1, h2, h3, h4, h5, h6, atSetup, checkedCalls, Machine.record, Machine.init]

theorem atRun_ready {F : Type} (A : FloatOps F) (n : Nat) (rt : Runtime F) :
    Ready A n (atRun A n rt) := by
  constructor <;> simp [atRun, Function.update]

theorem initHost_atSetup {F : Type} (A : FloatOps F) (n : Nat) (rt : Runtime F) :
    initHost A n (atSetup A n rt) = some { atSetup A n rt with
      In1 := (List.range n).map (in1Value A)
      In2 := (List.range n).map (in2Value A)
      Out := (List.range n).map (fun _ => A.ofInt 0) } :=
  initHost_eq A n _ (by simp [atSetup, Machine.init]) (by simp [atSetup, Machine.init])
    (by simp [atSetup, Machine.init])

theorem mainSetup_ok {F : Type} (A : FloatOps F) (n : Nat) (rt : Runtime F)
    (h7 : rt.createBuffer .memIn1 = CL_SUCCESS) (h8 : rt.createBuffer .memIn2 = CL_SUCCESS)
    (h9 : rt.createBuffer .memOut = CL_SUCCESS) (h10 : rt.setKernelArg 0 = CL_SUCCESS)
    (h11 : rt.setKernelArg 1 = CL_SUCCESS) (h12 : rt.setKernelArg 2 = CL_SUCCESS) :
    mainSetup A n rt (atSetup A n rt) = mainRun A n rt (atRun A n rt) := by
  have htake : ∀ g : Nat → F, List.take n ((List.range n).map g) = (List.range n).map g :=
    fun g => List.take_of_length_le (by simp)
  unfold mainSetup
  rw [initHost_atSetup]
  simp [h7, h8, h9, h10, h11, h12, atSetup, atRun, checkedCalls, Machine.record, Machine.init,
    Machine.createBuffer, Machine.setKernelArg, htake]

theorem mainWith_observed {F : Type} (A : FloatOps F) (n : Nat) (rt : Runtime F) :
    (mainWith A n rt).observed = expected n rt := by
  unfold expected
  by_cases h1 : rt.createContext = CL_SUCCESS
  swap
  · simp [mainWith, h1, fail_observed, Machine.record, Machine.init, checkedCalls]
  by_cases h2 : rt.getContextInfo = CL_SUCCESS
  swap
  · simp [mainWith, h1, h2, fail_observed, Machine.record, Machine.init, checkedCalls]
  by_cases h3 : rt.createCommandQueue = CL_SUCCESS
  swap
  · simp [mainWith, h1, h2, h3, fail_observed, Machine.record, Machine.init, checkedCalls]
  by_cases h4 : rt.createProgram = CL_SUCCESS
  swap
  · simp [mainWith, h1, h2, h3, h4, fail_observed, Machine.record, Machine.init, checkedCalls]
  by_cases h5 : rt.buildProgram = CL_SUCCESS
  swap
  · by_cases hb : rt.buildInfo.status = CL_SUCCESS
    · have hsz : rt.buildInfo.size_ret < rt.buildInfo.buffer.length := by
        have := rt.buildInfo_size hb
        simp [BuildInfo.buffer]
        omega
      simp [mainWith, h1, h2, h3, h4, h5, hb, hsz, printBuildLog, store, printError_eq,
        Outcome.observed, Machine.record, Machine.init, Machine.fprintf_stderr, Machine.printf,
        checkedCalls]
    · simp [mainWith, h1, h2, h3, h4, h5, hb, printBuildLog, printError_eq,
        Outcome.observed, Machine.record, Machine.init, Machine.fprintf_stderr, Machine.printf,
        checkedCalls]
  by_cases h6 : rt.createKernel = CL_SUCCESS
  swap
  · simp [mainWith, h1, h2, h3, h4, h5, h6, fail_observed, Machine.record, Machine.init,
      checkedCalls]
  rw [mainWith_prologue A n rt h1 h2 h3 h4 h5 h6]
  by_cases h7 : rt.createBuffer .memIn1 = CL_SUCCESS
  swap
  · unfold mainSetup
    rw [initHost_atSetup]
    simp [h1, h2, h3, h4, h5, h6, h7, fail_observed, atSetup,
      Machine.createBuffer, Machine.record, Machine.init, checkedCalls]
  by_cases h8 : rt.createBuffer .memIn2 = CL_SUCCESS
  swap
  · unfold mainSetup
    rw [initHost_atSetup]
    simp [h1, h2, h3, h4, h5, h6, h7, h8, fail_observed, atSetup,
      Machine.createBuffer, Machine.record, Machine.init, checkedCalls]
  by_cases h9 : rt.createBuffer .memOut = CL_SUCCESS
  swap
  · unfold mainSetup
    rw [initHost_atSetup]
    simp [h1, h2, h3, h4, h5, h6, h7, h8, h9, fail_observed,
      atSetup, Machine.createBuffer, Machine.record, Machine.init, checkedCalls]
  by_cases h10 : rt.setKernelArg 0 = CL_SUCCESS
  swap
  · unfold mainSetup
    rw [initHost_atSetup]
    simp [h1, h2, h3, h4, h5, h6, h7, h8, h9, h10, fail_observed,
      atSetup, Machine.createBuffer, Machine.setKernelArg, Machine.record, Machine.init,
      checkedCalls]
  by_cases h11 : rt.setKernelArg 1 = CL_SUCCESS
  swap
  · unfold mainSetup
    rw [initHost_atSetup]
    simp [h1, h2, h3, h4, h5, h6, h7, h8, h9, h10, h11,
      fail_observed, atSetup, Machine.createBuffer, Machine.setKernelArg, Machine.record,
      Machine.init, checkedCalls]
  by_cases h12 : rt.setKernelArg 2 = CL_SUCCESS
  swap
  · unfold mainSetup
    rw [initHost_atSetup]
    simp [h1, h2, h3, h4, h5, h6, h7, h8, h9, h10, h11, h12,
      fail_observed, atSetup, Machine.createBuffer, Machine.setKernelArg, Machine.record,
      Machine.init, checkedCalls]
  rw [mainSetup_ok A n rt h7 h8 h9 h10 h11 h12, mainRun_eq A n rt _ (atRun_ready A n rt)]
  by_cases h13 : rt.enqueueNDRange = CL_SUCCESS
  swap
  · simp [h1, h2, h3, h4, h5, h6, h7, h8, h9, h10, h11, h12, h13, fail_observed, atRun,
      Machine.record, checkedCalls]
  by_cases h14 : rt.enqueueRead = CL_SUCCESS
  swap
  · simp [h1, h2, h3, h4, h5, h6, h7, h8, h9, h10, h11, h12, h13, h14, fail_observed, atRun,
      Machine.record, checkedCalls]
  simp [h1, h2, h3, h4, h5, h6, h7, h8, h9, h10, h11, h12, h13, h14, release, afterRead, atRun,
    Outcome.observed, Machine.record, checkedCalls, releaseCalls]

theorem main_exit {F : Type} (A : FloatOps F) (rt : Runtime F) :
    (main A rt).exit = (expected NumElemets rt).exit :=
  congrArg Observed.exit (mainWith_observed A NumElemets rt)

theorem main_trace {F : Type} (A : FloatOps F) (rt : Runtime F) :
    (main A rt).state.trace = (expected NumElemets rt).trace :=
  congrArg Observed.trace (mainWith_observed A NumElemets rt)

theorem main_stderr {F : Type} (A : FloatOps F) (rt : Runtime F) :
    (main A rt).state.stderr = (expected NumElemets rt).stderr :=
  congrArg Observed.stderr (mainWith_observed A NumElemets rt)

theorem expected_exit {F : Type} (n : Nat) (rt : Runtime F) :
    (expected n rt).exit = some (match rt.firstFailure with
      | none => 0
      | some s => s.sourceStep) := by
  by_cases h1 : rt.createContext = CL_SUCCESS
  swap
  · simp [expected, Runtime.firstFailure, Runtime.checks, List.find?, Stage.sourceStep, h1]
  by_cases h2 : rt.getContextInfo = CL_SUCCESS
  swap
  · simp [expected, Runtime.firstFailure, Runtime.checks, List.find?, Stage.sourceStep, h1, h2]
  by_cases h3 : rt.createCommandQueue = CL_SUCCESS
  swap
  · simp [expected, Runtime.firstFailure, Runtime.checks, List.find?, Stage.sourceStep, h1, h2, h3]
  by_cases h4 : rt.createProgram = CL_SUCCESS
  swap
  · simp [expected, Runtime.firstFailure, Runtime.checks, List.find?, Stage.sourceStep, h1, h2, h3, h4]
  by_cases h5 : rt.buildProgram = CL_SUCCESS
  swap
  · simp [expected, Runtime.firstFailure, Runtime.checks, List.find?, Stage.sourceStep, h1, h2, h3, h4, h5]
  by_cases h6 : rt.createKernel = CL_SUCCESS
  swap
  · simp [expected, Runtime.firstFailure, Runtime.checks, List.find?, Stage.sourceStep, h1, h2, h3, h4, h5, h6]
  by_cases h7 : rt.createBuffer .memIn1 = CL_SUCCESS
  swap
  · simp [expected, Runtime.firstFailure, Runtime.checks, List.find?, Stage.sourceStep, h1, h2, h3, h4, h5, h6, h7]
  by_cases h8 : rt.createBuffer .memIn2 = CL_SUCCESS
  swap
  · simp [expected, Runtime.firstFailure, Runtime.checks, List.find?, Stage.sourceStep, h1, h2, h3, h4, h5, h6, h7, h8]
  by_cases h9 : rt.createBuffer .memOut = CL_SUCCESS
  swap
  · simp [expected, Runtime.firstFailure, Runtime.checks, List.find?, Stage.sourceStep, h1, h2, h3, h4, h5, h6, h7, h8, h9]
  by_cases h10 : rt.setKernelArg 0 = CL_SUCCESS
  swap
  · simp [expected, Runtime.firstFailure, Runtime.checks, List.find?, Stage.sourceStep, h1, h2, h3, h4, h5, h6, h7, h8, h9, h10]
  by_cases h11 : rt.setKernelArg 1 = CL_SUCCESS
  swap
  · simp [expected, Runtime.firstFailure, Runtime.checks, List.find?, Stage.sourceStep, h1, h2, h3, h4, h5, h6, h7, h8, h9, h10, h11]
  by_cases h12 : rt.setKernelArg 2 = CL_SUCCESS
  swap
  · simp [expected, Runtime.firstFailure, Runtime.checks, List.find?, Stage.sourceStep, h1, h2, h3, h4, h5, h6, h7, h8, h9, h10, h11, h12]
  by_cases h13 : rt.enqueueNDRange = CL_SUCCESS
  swap
  · simp [expected, Runtime.firstFailure, Runtime.checks, List.find?, Stage.sourceStep, h1, h2, h3, h4, h5, h6, h7, h8, h9, h10, h11, h12, h13]
  by_cases h14 : rt.enqueueRead = CL_SUCCESS
  swap
  · simp [expected, Runtime.firstFailure, Runtime.checks, List.find?, Stage.sourceStep, h1, h2, h3, h4, h5, h6, h7, h8, h9, h10, h11, h12, h13, h14]
  simp [expected, Runtime.firstFailure, Runtime.checks, List.find?, h1, h2, h3, h4, h5, h6, h7, h8, h9, h10, h11, h12, h13, h14]

theorem expected_success {F : Type} (n : Nat) (rt : Runtime F) (h : rt.allSucceed) :
    expected n rt = ⟨some 0, checkedCalls n rt ++ releaseCalls rt, []⟩ := by
  obtain ⟨h1, h2, h3, h4, h5, h6, h7, h8, h9, h10, h11, h12, h13, h14⟩ := h
  simp [expected, h1, h2, h3, h4, h5, h6, h7, h8, h9, h10, h11, h12, h13, h14]

theorem checkedCalls_not_failed {F : Type} (n : Nat) (rt : Runtime F) (h : rt.allSucceed) :
    ∀ e ∈ checkedCalls n rt ++ releaseCalls rt, e.call.isChecked = true → e.failed = false := by
  obtain ⟨h1, h2, h3, h4, h5, h6, h7, h8, h9, h10, h11, h12, h13, h14⟩ := h
  simp [checkedCalls, releaseCalls, Event.failed, Call.isChecked, h1, h2, h3, h4, h5, h6, h7,
    h8, h9, h10, h11, h12, h13, h14]

/-- The shape of a run that fails: the status-checked calls before the failing
one succeeded and none is a release call; the failing call is followed by nothing, or, when
it is the build, by the build-log query. -/
theorem expected_failure {F : Type} (n : Nat) (rt : Runtime F) (h : ¬ rt.allSucceed) :
    ∃ (pre : List Event) (c : Call) (s code : Int) (msg : String),
      s ≠ CL_SUCCESS ∧ code ≠ 0 ∧ (∀ x ∈ pre, x.call.isChecked = true → x.failed = false) ∧
      (∀ x ∈ pre, x.call.isRelease = false) ∧ c.isRelease = false ∧
      c ≠ .clGetProgramBuildInfo ∧ c.isChecked = true ∧
      msg.data.count '\n' = 1 ∧ (expected n rt).exit = some code ∧
      (((expected n rt).trace = pre ++ [⟨c, some s⟩] ∧
          (expected n rt).stderr = [msg, errorText s]) ∨
        (c = .clBuildProgram ∧
          (expected n rt).trace
            = pre ++ [⟨c, some s⟩, ⟨.clGetProgramBuildInfo, some rt.buildInfo.status⟩] ∧
          (expected n rt).stderr = [msg, errorText s] ++
            (if rt.buildInfo.status = CL_SUCCESS then [] else [errorText rt.buildInfo.status]))) := by
  by_cases h1 : rt.createContext = CL_SUCCESS
  swap
  · refine ⟨(checkedCalls n rt).take 0, .clCreateContextFromType, rt.createContext, 1, "clCreateContextFromType failed.\n", h1, by decide, ?_, ?_, rfl, ?_, rfl,
      by decide, ?_, Or.inl ⟨?_, ?_⟩⟩ <;>
    simp [expected, checkedCalls, Event.failed, Call.isRelease, Call.isChecked, h1]
  by_cases h2 : rt.getContextInfo = CL_SUCCESS
  swap
  · refine ⟨(checkedCalls n rt).take 1, .clGetContextInfo, rt.getContextInfo, 2, "clGetContextInfo failed.\n", h2, by decide, ?_, ?_, rfl, ?_, rfl,
      by decide, ?_, Or.inl ⟨?_, ?_⟩⟩ <;>
    simp [expected, checkedCalls, Event.failed, Call.isRelease, Call.isChecked, h1, h2]
  by_cases h3 : rt.createCommandQueue = CL_SUCCESS
  swap
  · refine ⟨(checkedCalls n rt).take 2, .clCreateCommandQueue, rt.createCommandQueue, 3, "clCreateCommandQueue failed.\n", h3, by decide, ?_, ?_, rfl, ?_, rfl,
      by decide, ?_, Or.inl ⟨?_, ?_⟩⟩ <;>
    simp [expected, checkedCalls, Event.failed, Call.isRelease, Call.isChecked, h1, h2, h3]
  by_cases h4 : rt.createProgram = CL_SUCCESS
  swap
  · refine ⟨(checkedCalls n rt).take 3, .clCreateProgramWithSource, rt.createProgram, 4, "clCreateProgramWithSource failed.\n", h4, by decide, ?_, ?_, rfl, ?_, rfl,
      by decide, ?_, Or.inl ⟨?_, ?_⟩⟩ <;>
    simp [expected, checkedCalls, Event.failed, Call.isRelease, Call.isChecked, h1, h2, h3, h4]
  by_cases h5 : rt.buildProgram = CL_SUCCESS
  swap
  · refine ⟨(checkedCalls n rt).take 4, .clBuildProgram, rt.buildProgram, 5, "clBuildProgram failed.\n", h5, by decide, ?_, ?_, rfl, ?_, rfl,
      by decide, ?_, Or.inr ⟨rfl, ?_, ?_⟩⟩ <;>
    simp [expected, checkedCalls, Event.failed, Call.isRelease, Call.isChecked, h1, h2, h3, h4, h5]
  by_cases h6 : rt.createKernel = CL_SUCCESS
  swap
  · refine ⟨(checkedCalls n rt).take 6, .clCreateKernel, rt.createKernel, 6, "clCreateKernel failed.\n", h6, by decide, ?_, ?_, rfl, ?_, rfl,
      by decide, ?_, Or.inl ⟨?_, ?_⟩⟩ <;>
    simp [expected, checkedCalls, Event.failed, Call.isRelease, Call.isChecked, h1, h2, h3, h4, h5, h6]
  by_cases h7 : rt.createBuffer .memIn1 = CL_SUCCESS
  swap
  · refine ⟨(checkedCalls n rt).take 7, .clCreateBuffer .memIn1, rt.createBuffer .memIn1, 7, "clCreateBuffer for memIn1 failed.\n", h7, by decide, ?_, ?_, rfl, ?_, rfl,
      by decide, ?_, Or.inl ⟨?_, ?_⟩⟩ <;>
    simp [expected, checkedCalls, Event.failed, Call.isRelease, Call.isChecked, h1, h2, h3, h4, h5, h6, h7]
  by_cases h8 : rt.createBuffer .memIn2 = CL_SUCCESS
  swap
  · refine ⟨(checkedCalls n rt).take 8, .clCreateBuffer .memIn2, rt.createBuffer .memIn2, 7, "clCreateBuffer for memIn2 failed.\n", h8, by decide, ?_, ?_, rfl, ?_, rfl,
      by decide, ?_, Or.inl ⟨?_, ?_⟩⟩ <;>
    simp [expected, checkedCalls, Event.failed, Call.isRelease, Call.isChecked, h1, h2, h3, h4, h5, h6, h7, h8]
  by_cases h9 : rt.createBuffer .memOut = CL_SUCCESS
  swap
  · refine ⟨(checkedCalls n rt).take 9, .clCreateBuffer .memOut, rt.createBuffer .memOut, 7, "clCreateBuffer for memOut failed.\n", h9, by decide, ?_, ?_, rfl, ?_, rfl,
      by decide, ?_, Or.inl ⟨?_, ?_⟩⟩ <;>
    simp [expected, checkedCalls, Event.failed, Call.isRelease, Call.isChecked, h1, h2, h3, h4, h5, h6, h7, h8, h9]
  by_cases h10 : rt.setKernelArg 0 = CL_SUCCESS
  swap
  · refine ⟨(checkedCalls n rt).take 10, .clSetKernelArg 0 .memIn1, rt.setKernelArg 0, 8, "clSetKernelArg for memIn1 failed.\n", h10, by decide, ?_, ?_, rfl, ?_, rfl,
      by decide, ?_, Or.inl ⟨?_, ?_⟩⟩ <;>
    simp [expected, checkedCalls, Event.failed, Call.isRelease, Call.isChecked, h1, h2, h3, h4, h5, h6, h7, h8, h9, h10]
  by_cases h11 : rt.setKernelArg 1 = CL_SUCCESS
  swap
  · refine ⟨(checkedCalls n rt).take 11, .clSetKernelArg 1 .memIn2, rt.setKernelArg 1, 8, "clSetKernelArg for memIn2 failed.\n", h11, by decide, ?_, ?_, rfl, ?_, rfl,
      by decide, ?_, Or.inl ⟨?_, ?_⟩⟩ <;>
    simp [expected, checkedCalls, Event.failed, Call.isRelease, Call.isChecked, h1, h2, h3, h4, h5, h6, h7, h8, h9, h10, h11]
  by_cases h12 : rt.setKernelArg 2 = CL_SUCCESS
  swap
  · refine ⟨(checkedCalls n rt).take 12, .clSetKernelArg 2 .memOut, rt.setKernelArg 2, 8, "clSetKernelArg for memOut failed.\n", h12, by decide, ?_, ?_, rfl, ?_, rfl,
      by decide, ?_, Or.inl ⟨?_, ?_⟩⟩ <;>
    simp [expected, checkedCalls, Event.failed, Call.isRelease, Call.isChecked, h1, h2, h3, h4, h5, h6, h7, h8, h9, h10, h11, h12]
  by_cases h13 : rt.enqueueNDRange = CL_SUCCESS
  swap
  · refine ⟨(checkedCalls n rt).take 13, .clEnqueueNDRangeKernel n, rt.enqueueNDRange, 9, "clEnqueueNDRangeKernel.\n", h13, by decide, ?_, ?_, rfl, ?_, rfl,
      by decide, ?_, Or.inl ⟨?_, ?_⟩⟩ <;>
    simp [expected, checkedCalls, Event.failed, Call.isRelease, Call.isChecked, h1, h2, h3, h4, h5, h6, h7, h8, h9, h10, h11, h12, h13]
  by_cases h14 : rt.enqueueRead = CL_SUCCESS
  swap
  · refine ⟨(checkedCalls n rt).take 14, .clEnqueueReadBuffer .memOut, rt.enqueueRead, 10, "clEnqueueReadBuffer.\n", h14, by decide, ?_, ?_, rfl, ?_, rfl,
      by decide, ?_, Or.inl ⟨?_, ?_⟩⟩ <;>
    simp [expected, checkedCalls, Event.failed, Call.isRelease, Call.isChecked, h1, h2, h3, h4, h5, h6, h7, h8, h9, h10, h11, h12, h13, h14]
  exact absurd ⟨h1, h2, h3, h4, h5, h6, h7, h8, h9, h10, h11, h12, h13, h14⟩ h

/-! ## Lines -/

theorem toDigitsCore_no_newline (fuel n : Nat) (ds : List Char) (h : ∀ c ∈ ds, c ≠ '\n') :
    ∀ c ∈ Nat.toDigitsCore 10 fuel n ds, c ≠ '\n' := by
  induction fuel generalizing n ds with
  | zero => simpa [Nat.toDigitsCore] using h
  | succ k ih =>
    have hd : Nat.digitChar (n % 10) ≠ '\n' := by
      have : n % 10 < 10 := Nat.mod_lt _ (by decide)
      interval_cases (n % 10) <;> decide
    have hds : ∀ c ∈ Nat.digitChar (n % 10) :: ds, c ≠ '\n' := by
      intro c hc
      simp only [List.mem_cons] at hc
      rcases hc with rfl | hc
      · exact hd
      · exact h c hc
    unfold Nat.toDigitsCore
    by_cases hn : n / 10 = 0
    · simpa [hn] using hds
    · simp only [hn, if_false]
      exact ih _ _ hds

theorem natRepr_no_newline (n : Nat) : ∀ c ∈ (Nat.repr n).data, c ≠ '\n' := by
  unfold Nat.repr Nat.toDigits
  simpa [List.asString] using toDigitsCore_no_newline (n + 1) n [] (by simp)

theorem intToString_no_newline (z : Int) : (toString z).data.count '\n' = 0 := by
  rw [List.count_eq_zero]
  intro hmem
  cases z with
  | ofNat n => exact natRepr_no_newline n _ hmem rfl
  | negSucc n =>
    have hmem2 : '\n' ∈ ("-" ++ Nat.repr (n + 1)).data := hmem
    simp only [String.data_append, List.mem_append] at hmem2
    rcases hmem2 with hc | hc
    · revert hc; decide
    · exact natRepr_no_newline _ _ hc rfl

theorem errorText_lines (err : Int) : (errorText err).data.count '\n' = 1 := by
  unfold errorText
  split_ifs
  · decide
  · decide
  · decide
  · decide
  · decide
  · decide
  · simp only [String.data_append, List.count_append, intToString_no_newline]
    decide

theorem errorText_last (err : Int) : (errorText err).data.getLast? = some '\n' := by
  unfold errorText
  split_ifs
  · decide
  · decide
  · decide
  · decide
  · decide
  · decide
  · have e : ("Unknown error code : " ++ toString err ++ "\n").data
        = ("Unknown error code : ".data ++ (toString err).data) ++ ['\n'] := by
      simp only [String.data_append]
    rw [e, List.getLast?_concat]

/-! ## Full outcomes -/

theorem mainWith_success {F : Type} (A : FloatOps F) (n : Nat) (rt : Runtime F)
    (h : rt.allSucceed) :
    mainWith A n rt = release rt { afterRead A n rt (atRun A n rt) with
      stdout := "(In1, In2, Out)\n" ::
        reportRows A rt ((List.range n).map (in1Value A)) ((List.range n).map (in2Value A))
          ((List.range n).map (sumValue A)) 100 } := by
  obtain ⟨h1, h2, h3, h4, h5, h6, h7, h8, h9, h10, h11, h12, h13, h14⟩ := h
  rw [mainWith_prologue A n rt h1 h2 h3 h4 h5 h6, mainSetup_ok A n rt h7 h8 h9 h10 h11 h12,
    mainRun_eq A n rt _ (atRun_ready A n rt)]
  simp [h13, h14, atRun]

theorem mainWith_build_failure {F : Type} (A : FloatOps F) (n : Nat) (rt : Runtime F)
    (h1 : rt.createContext = CL_SUCCESS) (h2 : rt.getContextInfo = CL_SUCCESS)
    (h3 : rt.createCommandQueue = CL_SUCCESS) (h4 : rt.createProgram = CL_SUCCESS)
    (h5 : rt.buildProgram ≠ CL_SUCCESS) :
    (mainWith A n rt).state.stdout =
      if rt.buildInfo.status = CL_SUCCESS then
        [">>>build log<<<\n", cstring (rt.buildInfo.buffer.set rt.buildInfo.size_ret 0) ++ "\n",
          ">>> end of build log <<<\n"]
      else ["clGetProgramInfo failed.\n"] := by
  by_cases hb : rt.buildInfo.status = CL_SUCCESS
  · have hsz : rt.buildInfo.size_ret < rt.buildInfo.buffer.length := by
      have := rt.buildInfo_size hb
      simp [BuildInfo.buffer]
      omega
    simp [mainWith, h1, h2, h3, h4, h5, hb, hsz, printBuildLog, store, Machine.record,
      Machine.init, Machine.fprintf_stderr, Machine.printf, printError_eq]
  · simp [mainWith, h1, h2, h3, h4, h5, hb, printBuildLog, Machine.record,
      Machine.init, Machine.fprintf_stderr, Machine.printf, printError_eq]

theorem build_failed_in_trace {F : Type} (n : Nat) (rt : Runtime F)
    (h : ∃ e ∈ (expected n rt).trace, e.call = .clBuildProgram ∧ e.failed = true) :
    rt.createContext = CL_SUCCESS ∧ rt.getContextInfo = CL_SUCCESS ∧
      rt.createCommandQueue = CL_SUCCESS ∧ rt.createProgram = CL_SUCCESS ∧
      rt.buildProgram ≠ CL_SUCCESS := by
  obtain ⟨e, he, hc, hf⟩ := h
  revert he
  by_cases h1 : rt.createContext = CL_SUCCESS
  swap
  · intro he
    simp [expected, checkedCalls, h1] at he
    subst he
    simp at hc
  by_cases h2 : rt.getContextInfo = CL_SUCCESS
  swap
  · intro he
    simp [expected, checkedCalls, h1, h2] at he
    rcases he with rfl | rfl <;> simp [Event.failed, h1, h2] at hc hf
  by_cases h3 : rt.createCommandQueue = CL_SUCCESS
  swap
  · intro he
    simp [expected, checkedCalls, h1, h2, h3] at he
    rcases he with rfl | rfl | rfl <;> simp [Event.failed, h1, h2, h3] at hc hf
  by_cases h4 : rt.createProgram = CL_SUCCESS
  swap
  · intro he
    simp [expected, checkedCalls, h1, h2, h3, h4] at he
    rcases he with rfl | rfl | rfl | rfl <;> simp [Event.failed, h1, h2, h3, h4] at hc hf
  by_cases h5 : rt.buildProgram = CL_SUCCESS
  swap
  · intro _
    exact ⟨h1, h2, h3, h4, h5⟩
  by_cases h6 : rt.createKernel = CL_SUCCESS
  swap
  · intro he
    simp [expected, checkedCalls, h1, h2, h3, h4, h5, h6] at he
    rcases he with rfl | rfl | rfl | rfl | rfl | rfl | rfl <;> simp [Event.failed, h1, h2, h3, h4, h5, h6] at hc hf
  by_cases h7 : rt.createBuffer .memIn1 = CL_SUCCESS
  swap
  · intro he
    simp [expected, checkedCalls, h1, h2, h3, h4, h5, h6, h7] at he
    rcases he with rfl | rfl | rfl | rfl | rfl | rfl | rfl | rfl <;> simp [Event.failed, h1, h2, h3, h4, h5, h6, h7] at hc hf
  by_cases h8 : rt.createBuffer .memIn2 = CL_SUCCESS
  swap
  · intro he
    simp [expected, checkedCalls, h1, h2, h3, h4, h5, h6, h7, h8] at he
    rcases he with rfl | rfl | rfl | rfl | rfl | rfl | rfl | rfl | rfl <;> simp [Event.failed, h1, h2, h3, h4, h5, h6, h7, h8] at hc hf
  by_cases h9 : rt.createBuffer .memOut = CL_SUCCESS
  swap
  · intro he
    simp [expected, checkedCalls, h1, h2, h3, h4, h5, h6, h7, h8, h9] at he
    rcases he with rfl | rfl | rfl | rfl | rfl | rfl | rfl | rfl | rfl | rfl <;> simp [Event.failed, h1, h2, h3, h4, h5, h6, h7, h8, h9] at hc hf
  by_cases h10 : rt.setKernelArg 0 = CL_SUCCESS
  swap
  · intro he
    simp [expected, checkedCalls, h1, h2, h3, h4, h5, h6, h7, h8, h9, h10] at he
    rcases he with rfl | rfl | rfl | rfl | rfl | rfl | rfl | rfl | rfl | rfl | rfl <;> simp [Event.failed, h1, h2, h3, h4, h5, h6, h7, h8, h9, h10] at hc hf
  by_cases h11 : rt.setKernelArg 1 = CL_SUCCESS
  swap
  · intro he
    simp [expected, checkedCalls, h1, h2, h3, h4, h5, h6, h7, h8, h9, h10, h11] at he
    rcases he with rfl | rfl | rfl | rfl | rfl | rfl | rfl | rfl | rfl | rfl | rfl | rfl <;> simp [Event.failed, h1, h2, h3, h4, h5, h6, h7, h8, h9, h10, h11] at hc hf
  by_cases h12 : rt.setKernelArg 2 = CL_SUCCESS
  swap
  · intro he
    simp [expected, checkedCalls, h1, h2, h3, h4, h5, h6, h7, h8, h9, h10, h11, h12] at he
    rcases he with rfl | rfl | rfl | rfl | rfl | rfl | rfl | rfl | rfl | rfl | rfl | rfl | rfl <;> simp [Event.failed, h1, h2, h3, h4, h5, h6, h7, h8, h9, h10, h11, h12] at hc hf
  by_cases h13 : rt.enqueueNDRange = CL_SUCCESS
  swap
  · intro he
    simp [expected, checkedCalls, h1, h2, h3, h4, h5, h6, h7, h8, h9, h10, h11, h12, h13] at he
    rcases he with rfl | rfl | rfl | rfl | rfl | rfl | rfl | rfl | rfl | rfl | rfl | rfl | rfl | rfl <;> simp [Event.failed, h1, h2, h3, h4, h5, h6, h7, h8, h9, h10, h11, h12, h13] at hc hf
  by_cases h14 : rt.enqueueRead = CL_SUCCESS
  swap
  · intro he
    simp [expected, checkedCalls, h1, h2, h3, h4, h5, h6, h7, h8, h9, h10, h11, h12, h13, h14] at he
    rcases he with rfl | rfl | rfl | rfl | rfl | rfl | rfl | rfl | rfl | rfl | rfl | rfl | rfl | rfl | rfl <;> simp [Event.failed, h1, h2, h3, h4, h5, h6, h7, h8, h9, h10, h11, h12, h13, h14] at hc hf
  intro he
  simp [expected, checkedCalls, releaseCalls, h1, h2, h3, h4, h5, h6, h7, h8, h9, h10, h11, h12, h13, h14] at he
  rcases he with rfl | rfl | rfl | rfl | rfl | rfl | rfl | rfl | rfl | rfl | rfl | rfl | rfl | rfl | rfl | rfl | rfl | rfl | rfl | rfl | rfl | rfl <;> simp [Event.failed, h1, h2, h3, h4, h5, h6, h7, h8, h9, h10, h11, h12, h13, h14] at hc hf

theorem takeWhile_length_le (l : List Nat) (i : Nat) (h : l[i]? = some 0) :
    (l.takeWhile (fun b => decide (b ≠ 0))).length ≤ i := by
  induction l generalizing i with
  | nil => simp at h
  | cons a t ih =>
    rw [List.takeWhile_cons]
    cases i with
    | zero =>
      simp only [List.getElem?_cons_zero, Option.some.injEq] at h
      simp [h]
    | succ j =>
      simp only [List.getElem?_cons_succ] at h
      have := ih j h
      split_ifs
      · simp only [List.length_cons]
        omega
      · simp

theorem cstring_length_le (l : List Nat) (i : Nat) (h : i < l.length) :
    (cstring (l.set i 0)).length ≤ i := by
  have : (l.set i 0)[i]? = some 0 := by simp [h]
  have hle := takeWhile_length_le (l.set i 0) i this
  simpa [cstring, String.length] using hle


theorem not_allSucceed_of_failed {F : Type} (A : FloatOps F) (rt : Runtime F)
    (h : ∃ e ∈ (main A rt).state.trace, e.call.isChecked = true ∧ e.failed = true) :
    ¬ rt.allSucceed := by
  intro hs
  obtain ⟨e, he, hc, hf⟩ := h
  rw [main_trace, expected_success NumElemets rt hs] at he
  have := checkedCalls_not_failed NumElemets rt hs e he hc
  rw [this] at hf
  cases hf

theorem logErr_buffer :
    logErr.buffer = 101 :: 114 :: 114 :: 0 :: (List.range' 4 4997).map (fun _ => 0) := by
  have tail : (List.range' 4 4997).map logErr.bytes
      = (List.range' 4 4997).map (fun _ => 0) := by
    apply List.map_congr_left
    intro k hk
    have := (List.mem_range'_1.1 hk).1
    have h0 : k ≠ 0 := by omega
    have h1 : k ≠ 1 := by omega
    have h2 : k ≠ 2 := by omega
    simp [logErr, h0, h1, h2]
  unfold BuildInfo.buffer MaxLogSize
  rw [List.range_eq_range', show (5000 + 1 : Nat) = 4997 + 1 + 1 + 1 + 1 from rfl]
  rw [List.range'_succ, List.range'_succ, List.range'_succ, List.range'_succ]
  simp only [List.map_cons, tail]
  rfl

theorem logErr_text : cstring (logErr.buffer.set logErr.size_ret 0) = "err" := by
  rw [logErr_buffer]
  have : logErr.size_ret = 4 := rfl
  rw [this]
  simp only [List.set_cons_succ]
  decide

/-! ## The claims -/

/-- C1. In every run of `main` in which every status-checked runtime call
succeeds, with the kernel `addVector` run once for each work-item of the 1-D
grid of `NumElemets = 10000` work-items (in any order) on the buffers bound to
arguments 0, 1, 2, the run returns 0 and for every `i < 10000` the host arrays
hold `In1[i] = (float)i * 100`, `In2[i] = (float)i / 100` and
`Out[i] = In1[i] + In2[i]`, for every interpretation of the `float`
operations. -/
theorem out_is_sum_of_inputs {F : Type} (A : FloatOps F) (rt : Runtime F)
    (h : rt.allSucceed) (i : Nat) (hi : i < NumElemets) :
    (main A rt).exit = some 0 ∧
      (main A rt).state.In1[i]? = some (A.mul (A.ofInt i) (A.ofInt 100)) ∧
      (main A rt).state.In2[i]? = some (A.div (A.ofInt i) (A.ofInt 100)) ∧
      (main A rt).state.Out[i]? =
        some (A.add (A.mul (A.ofInt i) (A.ofInt 100)) (A.div (A.ofInt i) (A.ofInt 100))) := by
  unfold main
  rw [mainWith_success A NumElemets rt h]
  simp [release, afterRead, atRun, Machine.record, hi, sumValue, in1Value, in2Value]

/-- C1, the scenarios of the specification in exact arithmetic: `i = 0` gives
0, 0, 0; `i = 1` gives 100, 0.01, 100.01; `i = 50` gives 5000, 0.5, 5000.5. -/
theorem out_is_sum_of_inputs_witness :
    rtOK.allSucceed ∧
      ((main exact rtOK).state.In1[0]? = some 0 ∧ (main exact rtOK).state.In2[0]? = some 0 ∧
        (main exact rtOK).state.Out[0]? = some 0) ∧
      ((main exact rtOK).state.In1[1]? = some 100 ∧
        (main exact rtOK).state.In2[1]? = some (1 / 100) ∧
        (main exact rtOK).state.Out[1]? = some (10001 / 100)) ∧
      ((main exact rtOK).state.In1[50]? = some 5000 ∧
        (main exact rtOK).state.In2[50]? = some (1 / 2) ∧
        (main exact rtOK).state.Out[50]? = some (10001 / 2)) := by
  have h0 := out_is_sum_of_inputs exact rtOK (by decide) 0 (by decide)
  have h1 := out_is_sum_of_inputs exact rtOK (by decide) 1 (by decide)
  have h50 := out_is_sum_of_inputs exact rtOK (by decide) 50 (by decide)
  refine ⟨by decide, ⟨?_, ?_, ?_⟩, ⟨?_, ?_, ?_⟩, ⟨?_, ?_, ?_⟩⟩
  · rw [h0.2.1]; norm_num [exact]
  · rw [h0.2.2.1]; norm_num [exact]
  · rw [h0.2.2.2]; norm_num [exact]
  · rw [h1.2.1]; norm_num [exact]
  · rw [h1.2.2.1]; norm_num [exact]
  · rw [h1.2.2.2]; norm_num [exact]
  · rw [h50.2.1]; norm_num [exact]
  · rw [h50.2.2.1]; norm_num [exact]
  · rw [h50.2.2.2]; norm_num [exact]

/-- C2 as stated fails: when `clBuildProgram` fails `main` returns 5, and when
`clCreateKernel` fails it returns 6, while the step numbers of section 4.1
that the claim lists are 4 (compile kernel source) and 5 (extract kernel). -/
theorem exit_code_not_spec_step :
    ((main exact rtBuildNoLog).exit = some 5 ∧
        rtBuildNoLog.firstFailure = some .buildProgram ∧
        Stage.specStep .buildProgram = 4) ∧
      ((main exact rtNoKernel).exit = some 6 ∧
        rtNoKernel.firstFailure = some .extractKernel ∧
        Stage.specStep .extractKernel = 5) := by
  decide

/-- C2, amended. For every outcome of the runtime calls the exit code of
`main` is 0 when every status-checked call succeeds, and otherwise the number
of the failure point of the first failing call in the numbering of the source:
context 1, device query 2, command queue 3, program creation 4, program build
5, kernel creation 6, a buffer allocation 7, an argument binding 8, dispatch
9, read-back 10. -/
theorem exit_code_of_first_failure {F : Type} (A : FloatOps F) (rt : Runtime F) :
    (main A rt).exit = some (match rt.firstFailure with
      | none => 0
      | some s => s.sourceStep) := by
  rw [main_exit, expected_exit]

/-- C3. If `clCreateContextFromType` returns a status other than `CL_SUCCESS`,
`main` returns 1 and the trace of runtime calls is that one call: no device
query, no queue creation and no program operation follows. -/
theorem context_failure_stops {F : Type} (A : FloatOps F) (rt : Runtime F)
    (h : rt.createContext ≠ CL_SUCCESS) :
    (main A rt).exit = some 1 ∧
      (main A rt).state.trace = [⟨.clCreateContextFromType, some rt.createContext⟩] := by
  rw [main_exit, main_trace]
  simp [expected, h, checkedCalls]

/-- C3 at the run in which context creation reports `CL_DEVICE_NOT_FOUND`. -/
theorem context_failure_stops_witness :
    rtNoDevice.createContext ≠ CL_SUCCESS ∧
      (main exact rtNoDevice).exit = some 1 ∧
      (main exact rtNoDevice).state.trace
        = [⟨.clCreateContextFromType, some rtNoDevice.createContext⟩] :=
  ⟨by decide, context_failure_stops exact rtNoDevice (by decide)⟩

/-- C4 as stated fails: in the run in which `clBuildProgram` fails and the
build-log query fails too, the standard output is the single line
`clGetProgramInfo failed.`; neither marker line is printed. `main` still
returns 5. -/
theorem build_log_markers_missing :
    (∃ e ∈ (main exact rtBuildNoLog).state.trace,
        e.call = .clBuildProgram ∧ e.failed = true) ∧
      (main exact rtBuildNoLog).exit = some 5 ∧
      (main exact rtBuildNoLog).state.stdout = ["clGetProgramInfo failed.\n"] ∧
      ">>>build log<<<\n" ∉ (main exact rtBuildNoLog).state.stdout ∧
      ">>> end of build log <<<\n" ∉ (main exact rtBuildNoLog).state.stdout := by
  decide

/-- C4, amended. In every run in which `clBuildProgram` fails, `main` returns
5; when the build-log query succeeds, the standard output is the marker line
`>>>build log<<<`, the build log (the bytes of the buffer before the first
zero byte, the byte at the reported length being zeroed; at most the reported
length, itself at most 5000 bytes) and the marker line
`>>> end of build log <<<`; when the query fails, the standard output is the
line `clGetProgramInfo failed.` instead. -/
theorem build_failure_prints_log {F : Type} (A : FloatOps F) (rt : Runtime F)
    (h : ∃ e ∈ (main A rt).state.trace, e.call = .clBuildProgram ∧ e.failed = true) :
    (main A rt).exit = some 5 ∧
      (rt.buildInfo.status = CL_SUCCESS →
        (main A rt).state.stdout =
          [">>>build log<<<\n",
            cstring (rt.buildInfo.buffer.set rt.buildInfo.size_ret 0) ++ "\n",
            ">>> end of build log <<<\n"] ∧
        (cstring (rt.buildInfo.buffer.set rt.buildInfo.size_ret 0)).length
          ≤ rt.buildInfo.size_ret ∧
        rt.buildInfo.size_ret ≤ MaxLogSize) ∧
      (rt.buildInfo.status ≠ CL_SUCCESS →
        (main A rt).state.stdout = ["clGetProgramInfo failed.\n"]) := by
  rw [main_trace] at h
  obtain ⟨h1, h2, h3, h4, h5⟩ := build_failed_in_trace NumElemets rt h
  have hout := mainWith_build_failure A NumElemets rt h1 h2 h3 h4 h5
  refine ⟨?_, ?_, ?_⟩
  · rw [main_exit]
    simp [expected, h1, h2, h3, h4, h5]
  · intro hb
    have hsz := rt.buildInfo_size hb
    refine ⟨?_, ?_, hsz⟩
    · unfold main
      rw [hout, if_pos hb]
    · apply cstring_length_le
      simp [BuildInfo.buffer]
      omega
  · intro hb
    unfold main
    rw [hout, if_neg hb]

/-- C4 at the run in which the build fails and the runtime reports the
four-byte log `err`: the standard output is the log between the two marker
lines and the exit code is 5. -/
theorem build_failure_prints_log_witness :
    (∃ e ∈ (main exact rtBuildLog).state.trace, e.call = .clBuildProgram ∧ e.failed = true) ∧
      (main exact rtBuildLog).exit = some 5 ∧
      (main exact rtBuildLog).state.stdout
        = [">>>build log<<<\n", "err\n", ">>> end of build log <<<\n"] := by
  have h : ∃ e ∈ (main exact rtBuildLog).state.trace,
      e.call = .clBuildProgram ∧ e.failed = true := by
    rw [main_trace]
    decide
  have hlog := build_failure_prints_log exact rtBuildLog h
  refine ⟨h, hlog.1, ?_⟩
  rw [(hlog.2.1 rfl).1]
  show [">>>build log<<<\n", cstring (logErr.buffer.set logErr.size_ret 0) ++ "\n",
    ">>> end of build log <<<\n"] = _
  rw [logErr_text]
  decide

/-- C5. In every run in which every status-checked runtime call succeeds, the
release calls of `main` are, in this order, `clReleaseMemObject(memOut)`,
`clReleaseMemObject(memIn2)`, `clReleaseMemObject(memIn1)`, `clReleaseKernel`,
`clReleaseProgram`, `clReleaseCommandQueue`, `clReleaseContext`: they are the
last seven calls of the trace, no call before them is a release call, and
`main` then returns 0. -/
theorem release_order {F : Type} (A : FloatOps F) (rt : Runtime F) (h : rt.allSucceed) :
    (main A rt).exit = some 0 ∧
      ((main A rt).state.trace.filter (fun e => e.call.isRelease)).map (fun e => e.call)
        = [.clReleaseMemObject .memOut, .clReleaseMemObject .memIn2,
            .clReleaseMemObject .memIn1, .clReleaseKernel, .clReleaseProgram,
            .clReleaseCommandQueue, .clReleaseContext] ∧
      ∃ pre : List Event, (∀ e ∈ pre, e.call.isRelease = false) ∧
        (main A rt).state.trace.map (fun e => e.call)
          = pre.map (fun e => e.call) ++
            [.clReleaseMemObject .memOut, .clReleaseMemObject .memIn2,
              .clReleaseMemObject .memIn1, .clReleaseKernel, .clReleaseProgram,
              .clReleaseCommandQueue, .clReleaseContext] := by
  rw [main_exit, main_trace, expected_success NumElemets rt h]
  refine ⟨rfl, ?_, checkedCalls NumElemets rt, ?_, ?_⟩
  · simp [checkedCalls, releaseCalls, Call.isRelease, List.filter]
  · simp [checkedCalls, Call.isRelease]
  · simp [releaseCalls]

/-- C5 at the run in which every call returns `CL_SUCCESS`. -/
theorem release_order_witness :
    rtOK.allSucceed ∧ (main exact rtOK).exit = some 0 :=
  ⟨by decide, (release_order exact rtOK (by decide)).1⟩

/-- C6 as stated fails: for the status -5, which is none of the six codes,
`printError` writes `Unknown error code : -5`, with a blank before the colon,
not the line `Unknown error code: -5` of the claim. -/
theorem unknown_code_line_differs :
    (printError (-5) (Machine.init exact 0)).stderr = ["Unknown error code : -5\n"] ∧
      (printError (-5) (Machine.init exact 0)).stderr ≠ ["Unknown error code: -5\n"] := by
  decide

/-- C6, amended. For every status `err`, `printError` writes exactly one line
to the error stream and changes nothing else: for build failure, device not
found, invalid context, invalid device, invalid device type and invalid
platform the fixed message of that code, and for every other status the line
`Unknown error code : <code>` (a blank on both sides of the colon) with
`<code>` the decimal value of `err`. -/
theorem printError_one_line {F : Type} (err : Int) (m : Machine F) :
    ∃ line : String,
      printError err m = { m with stderr := m.stderr ++ [line] } ∧
      line.data.count '\n' = 1 ∧ line.data.getLast? = some '\n' ∧
      (err = CL_BUILD_PROGRAM_FAILURE → line = "Program Build failed\n") ∧
      (err = CL_DEVICE_NOT_FOUND → line = "Device not found\n") ∧
      (err = CL_INVALID_CONTEXT → line = "Invaild context\n") ∧
      (err = CL_INVALID_DEVICE → line = "Invaild device\n") ∧
      (err = CL_INVALID_DEVICE_TYPE → line = "Invaild device type\n") ∧
      (err = CL_INVALID_PLATFORM → line = "Invalid platform\n") ∧
      (err ≠ CL_BUILD_PROGRAM_FAILURE → err ≠ CL_DEVICE_NOT_FOUND → err ≠ CL_INVALID_CONTEXT →
        err ≠ CL_INVALID_DEVICE → err ≠ CL_INVALID_DEVICE_TYPE → err ≠ CL_INVALID_PLATFORM →
        line = "Unknown error code : " ++ toString err ++ "\n") := by
  refine ⟨errorText err, ?_, errorText_lines err, errorText_last err, ?_, ?_, ?_, ?_, ?_, ?_, ?_⟩
  · rw [printError_eq]
    rfl
  · intro h; subst h; decide
  · intro h; subst h; decide
  · intro h; subst h; decide
  · intro h; subst h; decide
  · intro h; subst h; decide
  · intro h; subst h; decide
  · intro h1 h2 h3 h4 h5 h6
    simp [errorText, h1, h2, h3, h4, h5, h6]

/-- C6 at the status -5: the line is `Unknown error code : -5`. -/
theorem printError_one_line_witness :
    ∃ line : String,
      printError (-5) (Machine.init exact 0)
        = { Machine.init exact 0 with stderr := (Machine.init exact 0).stderr ++ [line] } ∧
      line = "Unknown error code : -5\n" := by
  obtain ⟨line, h, _, _, _, _, _, _, _, _, hd⟩ := printError_one_line (-5) (Machine.init exact 0)
  exact ⟨line, h, by
    rw [hd (by decide) (by decide) (by decide) (by decide) (by decide) (by decide)]
    decide⟩

/-- C7 as stated fails: in the run in which every status-checked call
succeeds and `clReleaseMemObject(memOut)` returns `CL_OUT_OF_RESOURCES`, a
runtime call fails, yet `main` discards the status, issues all seven release
calls, writes nothing to the error stream and returns 0. -/
theorem failed_release_is_ignored :
    (∃ e ∈ (main exact rtReleaseFails).state.trace, e.failed = true) ∧
      (main exact rtReleaseFails).exit = some 0 ∧
      (main exact rtReleaseFails).state.stderr = [] ∧
      ((main exact rtReleaseFails).state.trace.filter (fun e => e.call.isRelease)).length
        = 7 := by
  rw [main_exit, main_trace, main_stderr]
  decide

/-- C7, amended. In every run in which some status-checked runtime call fails
(a call whose returned status the program inspects: every call except
`clUnloadCompiler` and the release calls), `main` returns a non-zero exit code
after reporting the failure on the error stream, and its trace holds no
release call (`clReleaseMemObject`, `clReleaseKernel`, `clReleaseProgram`,
`clReleaseCommandQueue`, `clReleaseContext`); every status-checked call before
the first failing one succeeded, and no creation, dispatch or read call
follows it: nothing follows it, except the build-log query after a failed
`clBuildProgram`. -/
theorem failure_exits_without_release {F : Type} (A : FloatOps F) (rt : Runtime F)
    (h : ∃ e ∈ (main A rt).state.trace, e.call.isChecked = true ∧ e.failed = true) :
    (∃ code, (main A rt).exit = some code ∧ code ≠ 0) ∧
      2 ≤ (main A rt).state.stderr.length ∧
      (∀ e ∈ (main A rt).state.trace, e.call.isRelease = false) ∧
      ∃ (pre : List Event) (e : Event) (post : List Event),
        (main A rt).state.trace = pre ++ e :: post ∧
        (∀ x ∈ pre, x.call.isChecked = true → x.failed = false) ∧
        e.call.isChecked = true ∧ e.failed = true ∧
        (∀ x ∈ post, x.call.isCreateDispatchRead = false) ∧
        (post = [] ∨ (e.call = .clBuildProgram ∧
          post = [⟨.clGetProgramBuildInfo, some rt.buildInfo.status⟩])) := by
  have hns := not_allSucceed_of_failed A rt h
  obtain ⟨pre, c, s, code, msg, hs, hcode, hpre, hrel, hc, _, hchk, _, hexit, hshape⟩ :=
    expected_failure NumElemets rt hns
  have hfail : (⟨c, some s⟩ : Event).failed = true := by simp [Event.failed, hs]
  rw [main_exit, main_trace, main_stderr]
  rcases hshape with ⟨ht, he⟩ | ⟨hb, ht, he⟩
  · refine ⟨⟨code, hexit, hcode⟩, by simp [he], ?_, pre, ⟨c, some s⟩, [], ?_, hpre, hchk,
      hfail, by simp, Or.inl rfl⟩
    · intro x hx
      rw [ht] at hx
      rcases List.mem_append.1 hx with hx | hx
      · exact hrel x hx
      · rw [List.mem_singleton.1 hx]
        exact hc
    · rw [ht]
  · refine ⟨⟨code, hexit, hcode⟩, ?_, ?_, pre, ⟨c, some s⟩,
      [⟨.clGetProgramBuildInfo, some rt.buildInfo.status⟩], ?_, hpre, hchk, hfail, ?_,
      Or.inr ⟨hb, rfl⟩⟩
    · rw [he]
      simp
    · intro x hx
      rw [ht] at hx
      rcases List.mem_append.1 hx with hx | hx
      · exact hrel x hx
      · simp only [List.mem_cons, List.mem_singleton, List.not_mem_nil, or_false] at hx
        rcases hx with hx | hx
        · rw [hx]; exact hc
        · rw [hx]; rfl
    · rw [ht]
    · intro x hx
      rw [List.mem_singleton.1 hx]
      rfl

/-- C7 at the run in which kernel creation fails. -/
theorem failure_exits_without_release_witness :
    (∃ e ∈ (main exact rtNoKernel).state.trace, e.call.isChecked = true ∧ e.failed = true) ∧
      (∃ code, (main exact rtNoKernel).exit = some code ∧ code ≠ 0) ∧
      (∀ e ∈ (main exact rtNoKernel).state.trace, e.call.isRelease = false) :=
  have h : ∃ e ∈ (main exact rtNoKernel).state.trace,
      e.call.isChecked = true ∧ e.failed = true := by decide
  ⟨h, (failure_exits_without_release exact rtNoKernel h).1,
    (failure_exits_without_release exact rtNoKernel h).2.2.1⟩

/-- C8 as stated fails: in the run in which the program build fails and the
build-log query fails too, three lines are written to the error stream
(`clBuildProgram failed.`, the line of `printError` for the build status and
the line of `printError` for the status of the query), not one or two.  And in
the run in which only the release of the output buffer fails, whose status
`main` discards, no line is written and the exit code is 0. -/
theorem three_diagnostic_lines :
    ((∃ e ∈ (main exact rtBuildNoLog).state.trace, e.failed = true) ∧
        (main exact rtBuildNoLog).state.stderr
          = ["clBuildProgram failed.\n", "Program Build failed\n",
              "Unknown error code : -30\n"] ∧
        lineCount (main exact rtBuildNoLog).state.stderr = 3) ∧
      ((∃ e ∈ (main exact rtReleaseFails).state.trace, e.failed = true) ∧
        lineCount (main exact rtReleaseFails).state.stderr = 0 ∧
        (main exact rtReleaseFails).exit = some 0) := by
  refine ⟨by decide, ?_, ?_, ?_⟩
  · rw [main_trace]
    decide
  · rw [main_stderr]
    decide
  · rw [main_exit]
    decide

/-- C8, amended. In every run in which some status-checked runtime call fails
(a call whose returned status the program inspects: every call except
`clUnloadCompiler` and the release calls), the exit code is non-zero and the
number of lines written to the error stream is two, or three; it is three
exactly when the program build fails and the build-log query fails too. -/
theorem failure_diagnostic_lines {F : Type} (A : FloatOps F) (rt : Runtime F)
    (h : ∃ e ∈ (main A rt).state.trace, e.call.isChecked = true ∧ e.failed = true) :
    (∃ code, (main A rt).exit = some code ∧ code ≠ 0) ∧
      (lineCount (main A rt).state.stderr = 2 ∨ lineCount (main A rt).state.stderr = 3) ∧
      (lineCount (main A rt).state.stderr = 3 ↔
        ∃ e ∈ (main A rt).state.trace, e.call = .clGetProgramBuildInfo ∧ e.failed = true) := by
  have hns := not_allSucceed_of_failed A rt h
  obtain ⟨pre, c, s, code, msg, hs, hcode, hpre, hrel, hc, hq, hchk, hmsg, hexit, hshape⟩ :=
    expected_failure NumElemets rt hns
  rw [main_exit, main_trace, main_stderr]
  refine ⟨⟨code, hexit, hcode⟩, ?_⟩
  rcases hshape with ⟨ht, he⟩ | ⟨hb, ht, he⟩
  · have h2 : lineCount (expected NumElemets rt).stderr = 2 := by
      rw [he]
      simp [lineCount, hmsg, errorText_lines]
    refine ⟨Or.inl h2, ?_⟩
    rw [h2, ht]
    constructor
    · intro h3
      omega
    · rintro ⟨e, he, hec, hef⟩
      exfalso
      rcases List.mem_append.1 he with he | he
      · rw [hpre e he (by rw [hec]; rfl)] at hef
        cases hef
      · rw [List.mem_singleton.1 he] at hec
        exact hq hec
  · by_cases hb2 : rt.buildInfo.status = CL_SUCCESS
    · have h2 : lineCount (expected NumElemets rt).stderr = 2 := by
        rw [he]
        simp [lineCount, hmsg, errorText_lines, hb2]
      refine ⟨Or.inl h2, ?_⟩
      rw [h2, ht]
      constructor
      · intro h3
        omega
      · rintro ⟨e, he, hec, hef⟩
        exfalso
        rcases List.mem_append.1 he with he | he
        · rw [hpre e he (by rw [hec]; rfl)] at hef
          cases hef
        · simp only [List.mem_cons, List.mem_singleton, List.not_mem_nil, or_false] at he
          rcases he with he | he
          · rw [he] at hec
            exact hq hec
          · rw [he] at hef
            simp [Event.failed, hb2] at hef
    · have h3 : lineCount (expected NumElemets rt).stderr = 3 := by
        rw [he]
        simp [lineCount, hmsg, errorText_lines, hb2]
      refine ⟨Or.inr h3, ?_⟩
      rw [h3, ht]
      constructor
      · intro _
        exact ⟨⟨.clGetProgramBuildInfo, some rt.buildInfo.status⟩, by simp, rfl,
          by simp [Event.failed, hb2]⟩
      · intro _
        rfl

/-- C8 at the run in which kernel creation fails: two lines. -/
theorem failure_diagnostic_lines_witness :
    (∃ e ∈ (main exact rtNoKernel).state.trace, e.call.isChecked = true ∧ e.failed = true) ∧
      (lineCount (main exact rtNoKernel).state.stderr = 2 ∨
        lineCount (main exact rtNoKernel).state.stderr = 3) :=
  have h : ∃ e ∈ (main exact rtNoKernel).state.trace,
      e.call.isChecked = true ∧ e.failed = true := by decide
  ⟨h, (failure_diagnostic_lines exact rtNoKernel h).2.1⟩

/-- C9. For every value `n` of the element count, in every run in which every
status-checked runtime call succeeds, `main` returns 0 and the standard output
is the header line `(In1, In2, Out)` followed by exactly 100 rows, the row for
index `i` (0 to 99, in increasing order) showing what the reads `In1[i]`,
`In2[i]`, `Out[i]` yield and the host-computed `In1[i] + In2[i]`; for `i < n`
(every row, when `n` is at least 100 as in the source) these are the elements
of the arrays. -/
theorem report_hundred_rows {F : Type} (A : FloatOps F) (n : Nat) (rt : Runtime F)
    (h : rt.allSucceed) :
    (mainWith A n rt).exit = some 0 ∧
      ∃ rows : List String,
        (mainWith A n rt).state.stdout = "(In1, In2, Out)\n" :: rows ∧
        rows.length = 100 ∧
        ∀ i, i < 100 → ∃ a b c : F,
          rows[i]? = some (row A a b c (A.add a b)) ∧
          a = cread (rt.stray .In1) (mainWith A n rt).state.In1 i ∧
          b = cread (rt.stray .In2) (mainWith A n rt).state.In2 i ∧
          c = cread (rt.stray .Out) (mainWith A n rt).state.Out i ∧
          (i < n →
            (mainWith A n rt).state.In1[i]? = some a ∧
            (mainWith A n rt).state.In2[i]? = some b ∧
            (mainWith A n rt).state.Out[i]? = some c) := by
  rw [mainWith_success A n rt h]
  refine ⟨rfl, reportRows A rt ((List.range n).map (in1Value A))
    ((List.range n).map (in2Value A)) ((List.range n).map (sumValue A)) 100, ?_,
    by simp [reportRows], ?_⟩
  · simp [release, Machine.record]
  · intro i hi
    refine ⟨_, _, _, ?_, rfl, rfl, rfl, ?_⟩
    · simp [reportRows, hi, release, afterRead, atRun, Machine.record]
    · intro hin
      simp [release, afterRead, atRun, Machine.record, hin, cread]

/-- C9 at the element count of the source, at the count 100 and at the count
50, where the rows 50 to 99 show what lies past the end of the arrays. -/
theorem report_hundred_rows_witness :
    rtOK.allSucceed ∧ (main exact rtOK).exit = some 0 ∧
      (mainWith exact 100 rtOK).exit = some 0 ∧ (mainWith exact 50 rtOK).exit = some 0 :=
  ⟨by decide, (report_hundred_rows exact NumElemets rtOK (by decide)).1,
    (report_hundred_rows exact 100 rtOK (by decide)).1,
    (report_hundred_rows exact 50 rtOK (by decide)).1⟩

/-- C10. In `printBuildLog`, after a successful build-log query the buffer
has `MaxLogSize + 1 = 5001` bytes; when the reported length `size_ret` is at
most `MaxLogSize` the write `buffer[size_ret] = 0` is in range and
`printBuildLog` completes, and when `size_ret` is greater than `MaxLogSize`
the write is out of range. -/
theorem terminator_write_in_range {F : Type} (r : BuildInfo) (m : Machine F)
    (h : r.status = CL_SUCCESS) :
    r.buffer.length = MaxLogSize + 1 ∧
      (r.size_ret ≤ MaxLogSize →
        store r.buffer r.size_ret 0 = some (r.buffer.set r.size_ret 0) ∧
        (printBuildLog r m).isSome = true) ∧
      (MaxLogSize < r.size_ret →
        store r.buffer r.size_ret 0 = none ∧ printBuildLog r m = none) := by
  have hlen : r.buffer.length = MaxLogSize + 1 := by simp [BuildInfo.buffer]
  refine ⟨hlen, ?_, ?_⟩
  · intro hle
    have hlt : r.size_ret < r.buffer.length := by omega
    simp [printBuildLog, store, h, hlt]
  · intro hgt
    have hlt : ¬ r.size_ret < r.buffer.length := by omega
    simp [printBuildLog, store, h, hlt]

/-- C10 at the query that reports the four bytes `err` and their zero. -/
theorem terminator_write_in_range_witness :
    logErr.status = CL_SUCCESS ∧ logErr.buffer.length = MaxLogSize + 1 ∧
      (logErr.size_ret ≤ MaxLogSize →
        (printBuildLog logErr (Machine.init exact 0)).isSome = true) :=
  ⟨by decide, (terminator_write_in_range logErr (Machine.init exact 0) (by decide)).1,
    fun hle => ((terminator_write_in_range logErr (Machine.init exact 0) (by decide)).2.1 hle).2⟩

end BasicOpenCL
